import Mathlib

/-
Shallow embedding of the particle simulation core of BigFun123/particlephysicslab
(src/simulation.js, the authoritative final revision of the ParticleSimulation
class, lines 1085-1958).  Scalars are embedded as rationals.  The sources of
nondeterminism and transcendental arithmetic of the JavaScript code
(Math.random, Math.sqrt, Math.cos, Math.sin, Math.PI) are supplied as oracle
parameters in an Env record: every theorem either holds for all oracles or
fixes a concrete oracle whose values agree with the exact mathematical
functions on the inputs actually evaluated.
-/

namespace PPLab

/-- Two dimensional vector of rationals; the flat interleaved Float32Array of
the source is embedded as a list of these pairs. -/
structure V2 where
  x : ℚ
  y : ℚ
deriving DecidableEq

/-- Shape tag: the source stores `type === "rect"` or `type === "circle"`. -/
inductive ShapeKind where
  | rect : ShapeKind
  | circle : ShapeKind
deriving DecidableEq

/-- Loosely typed shape record of the source; absent optional JS fields are
embedded as 0 or false (matching JS falsiness where the source tests them). -/
structure Shape where
  kind : ShapeKind
  x : ℚ := 0
  y : ℚ := 0
  width : ℚ := 0
  height : ℚ := 0
  radius : ℚ := 0
  vx : ℚ := 0
  vy : ℚ := 0
  mass : ℚ := 0
  rotating : Bool := false
  rotationSpeed : ℚ := 0
  angle : ℚ := 0
  moveable : Bool := false
  absorb : Bool := false
deriving DecidableEq

/-- Sensor rectangle (this.sensor). -/
structure Sensor where
  x : ℚ
  y : ℚ
  width : ℚ
  height : ℚ
deriving DecidableEq

/-- Emitter descriptor (this.emitter). -/
structure Emitter where
  x : ℚ
  y : ℚ
  radius : ℚ
  particlesPerSecond : ℚ
  particleSpeed : ℚ
  maxParticles : ℕ
deriving DecidableEq

/-- Oracle environment: values returned by the nondeterministic and
transcendental primitives of the JavaScript runtime.  sq models Math.sqrt,
cosOf and sinOf model Math.cos and Math.sin, piVal models Math.PI, and
rndA..rndD model the successive Math.random() draws made inside one loop
iteration, indexed by the iteration counter. -/
structure Env where
  sq : ℚ → ℚ
  cosOf : ℚ → ℚ
  sinOf : ℚ → ℚ
  piVal : ℚ
  rndA : ℕ → ℚ
  rndB : ℕ → ℚ
  rndC : ℕ → ℚ
  rndD : ℕ → ℚ

/-- Full mutable state of the ParticleSimulation object (final revision
constructor).  positions and velocities hold one V2 per particle; the null
arrays of a freshly constructed object are embedded as [].  emissionCount is a
ghost counter used only to index the random oracle for emitted particles. -/
structure SimState where
  particleCount : ℕ
  positions : List V2
  velocities : List V2
  speedMultiplier : ℚ
  damping : ℚ
  particleRadius : ℚ
  boundsW : ℚ
  boundsH : ℚ
  cellSize : ℚ
  shapes : List Shape
  time : ℚ
  sensor : Option Sensor
  sensorHits : Option (List ℚ)
  sensorResolution : ℚ
  showForceField : Bool
  forceFieldResolution : ℚ
  forceField : Option (List ℚ)
  forceFieldWidth : ℕ
  forceFieldHeight : ℕ
  emitter : Option Emitter
  emitterAccumulator : ℚ
  activeParticles : ℕ
  wrapEdges : Bool
  emissionCount : ℕ

/-- isPointInShape.  The circle branch of the source tests
Math.sqrt(dx*dx+dy*dy) <= shape.radius, which over the reals is equivalent to
0 <= radius together with dx*dx+dy*dy <= radius*radius; the rect branch tests
the axis aligned bounding box. -/
def isPointInShape (px py : ℚ) (s : Shape) : Bool :=
  let dx := px - s.x
  let dy := py - s.y
  match s.kind with
  | ShapeKind.circle =>
      decide (0 ≤ s.radius) && decide (dx * dx + dy * dy ≤ s.radius * s.radius)
  | ShapeKind.rect =>
      decide (s.x ≤ px) && decide (px ≤ s.x + s.width) &&
      decide (s.y ≤ py) && decide (py ≤ s.y + s.height)

/-- isPositionOccupied: true when any registered shape contains the point. -/
def isPositionOccupied (shapes : List Shape) (px py : ℚ) : Bool :=
  shapes.any (fun s => isPointInShape px py s)

/-- Shared rejection-sampling loop of initCenter, initLeft and initRandom:
while (placed < count and attempts < budget) draw candidate cand attempts,
retry if occupied, otherwise record position and velocity.  budget is the
remaining number of attempts (initially particleCount * 100). -/
def placeLoop (shapes : List Shape) (cand vel : ℕ → V2) (count : ℕ) :
    ℕ → ℕ → List (V2 × V2) → List (V2 × V2)
  | 0, _, acc => acc
  | budget + 1, attempts, acc =>
    if acc.length < count then
      if isPositionOccupied shapes (cand attempts).x (cand attempts).y then
        placeLoop shapes cand vel count budget (attempts + 1) acc
      else
        placeLoop shapes cand vel count budget (attempts + 1)
          (acc ++ [(cand attempts, vel attempts)])
    else acc

/-- Packaging step shared by the three initializers: run the loop with budget
particleCount * 100, then shrink particleCount on a shortfall (the arrays keep
their allocated length, trailing slots staying zero-filled). -/
def runPlacement (shapes : List Shape) (cand vel : ℕ → V2) (count : ℕ) :
    ℕ × List V2 × List V2 :=
  let placedList := placeLoop shapes cand vel count (count * 100) 0 []
  let newCount := if placedList.length < count then placedList.length else count
  (newCount,
   placedList.map Prod.fst ++ List.replicate (count - placedList.length) ⟨0, 0⟩,
   placedList.map Prod.snd ++ List.replicate (count - placedList.length) ⟨0, 0⟩)

/-- initCenter candidate and velocity streams: point at random angle and
radius below 200 around the domain center, speed 50 + rnd*150 at a random
direction. -/
def initCenter (env : Env) (shapes : List Shape) (boundsW boundsH : ℚ)
    (count : ℕ) : ℕ × List V2 × List V2 :=
  let centerX := boundsW / 2
  let centerY := boundsH / 2
  let cand : ℕ → V2 := fun a =>
    let angle := env.rndA a * (2 * env.piVal)
    let radius := env.rndB a * 200
    ⟨centerX + env.cosOf angle * radius, centerY + env.sinOf angle * radius⟩
  let vel : ℕ → V2 := fun a =>
    let speed := 50 + env.rndC a * 150
    let velAngle := env.rndD a * (2 * env.piVal)
    ⟨env.cosOf velAngle * speed, env.sinOf velAngle * speed⟩
  runPlacement shapes cand vel count

/-- initLeft: band near the left edge, speed 100 + rnd*100 at a near
horizontal angle (rnd - 0.5) * 0.3. -/
def initLeft (env : Env) (shapes : List Shape) (boundsH : ℚ)
    (count : ℕ) : ℕ × List V2 × List V2 :=
  let spawnHeight := boundsH * 0.6
  let spawnY := (boundsH - spawnHeight) / 2
  let cand : ℕ → V2 := fun a =>
    ⟨100 + env.rndA a * 50, spawnY + env.rndB a * spawnHeight⟩
  let vel : ℕ → V2 := fun a =>
    let speed := 100 + env.rndC a * 100
    let angle := (env.rndD a - 0.5) * 0.3
    ⟨env.cosOf angle * speed, env.sinOf angle * speed⟩
  runPlacement shapes cand vel count

/-- initRandom: uniform point over the whole domain, speed 50 + rnd*100 at a
random direction. -/
def initRandom (env : Env) (shapes : List Shape) (boundsW boundsH : ℚ)
    (count : ℕ) : ℕ × List V2 × List V2 :=
  let cand : ℕ → V2 := fun a => ⟨env.rndA a * boundsW, env.rndB a * boundsH⟩
  let vel : ℕ → V2 := fun a =>
    let speed := 50 + env.rndC a * 100
    let angle := env.rndD a * (2 * env.piVal)
    ⟨env.cosOf angle * speed, env.sinOf angle * speed⟩
  runPlacement shapes cand vel count

/-- handleStaticRectCollision: closest point on the axis aligned rectangle,
push out along the contact normal when penetrating (and the distance is above
the 0.01 noise floor), reflect the velocity about the normal scaled by the
global damping.  Returns the new particle position and velocity. -/
def handleStaticRectCollision (env : Env) (damping r : ℚ) (p v : V2)
    (s : Shape) : V2 × V2 :=
  let closestX := max s.x (min p.x (s.x + s.width))
  let closestY := max s.y (min p.y (s.y + s.height))
  let dx := p.x - closestX
  let dy := p.y - closestY
  let distSq := dx * dx + dy * dy
  if distSq < r * r then
    let dist := env.sq distSq
    if 0.01 < dist then
      let nx := dx / dist
      let ny := dy / dist
      let overlap := r - dist
      let p2 : V2 := ⟨p.x + nx * overlap, p.y + ny * overlap⟩
      let dot := v.x * nx + v.y * ny
      (p2, ⟨(v.x - 2 * dot * nx) * damping, (v.y - 2 * dot * ny) * damping⟩)
    else (p, v)
  else (p, v)

/-- handleRotatingRectCollision: transform the particle into the unrotated
frame of the rectangle, run the closest point test there, transform the normal
back, and reflect the velocity relative to the rotating surface velocity at
the contact point before damping.  cos and sin of -angle come from the trig
oracle, as in the source (Math.cos(-angle), Math.sin(-angle)). -/
def handleRotatingRectCollision (env : Env) (damping r : ℚ) (p v : V2)
    (s : Shape) : V2 × V2 :=
  let centerX := s.x + s.width / 2
  let centerY := s.y + s.height / 2
  let c := env.cosOf (-s.angle)
  let sn := env.sinOf (-s.angle)
  let localX := c * (p.x - centerX) - sn * (p.y - centerY)
  let localY := sn * (p.x - centerX) + c * (p.y - centerY)
  let halfW := s.width / 2
  let halfH := s.height / 2
  let closestX := max (-halfW) (min localX halfW)
  let closestY := max (-halfH) (min localY halfH)
  let dx := localX - closestX
  let dy := localY - closestY
  let distSq := dx * dx + dy * dy
  if distSq < r * r then
    let dist := env.sq distSq
    if 0.01 < dist then
      let localNx := dx / dist
      let localNy := dy / dist
      let worldNx := c * localNx + sn * localNy
      let worldNy := -sn * localNx + c * localNy
      let overlap := r - dist
      let p2 : V2 := ⟨p.x + worldNx * overlap, p.y + worldNy * overlap⟩
      let worldClosestX := c * closestX - sn * closestY + centerX
      let worldClosestY := sn * closestX + c * closestY + centerY
      let radiusX := worldClosestX - centerX
      let radiusY := worldClosestY - centerY
      let surfaceVelX := -radiusY * s.rotationSpeed
      let surfaceVelY := radiusX * s.rotationSpeed
      let relativeVelX := v.x - surfaceVelX
      let relativeVelY := v.y - surfaceVelY
      let dot := relativeVelX * worldNx + relativeVelY * worldNy
      if dot < 0 then
        let reflectedRelVelX := relativeVelX - 2 * dot * worldNx
        let reflectedRelVelY := relativeVelY - 2 * dot * worldNy
        (p2, ⟨(reflectedRelVelX + surfaceVelX) * damping,
              (reflectedRelVelY + surfaceVelY) * damping⟩)
      else (p2, v)
    else (p, v)
  else (p, v)

/-- handleCircleCollision: radius sum penetration test, push the particle out
along the center to center normal, and if the particle is approaching (its own
velocity dotted with the normal is negative) transfer momentum to a moveable
circle (transfer coefficient 0.5, circle mass defaulting to 1000 when the
field is falsy) and reflect the particle velocity scaled by damping.  Returns
new particle position, velocity and the (possibly updated) shape. -/
def handleCircleCollision (env : Env) (damping r : ℚ) (p v : V2)
    (s : Shape) : V2 × V2 × Shape :=
  let dx := p.x - s.x
  let dy := p.y - s.y
  let distSq := dx * dx + dy * dy
  let combinedRadius := r + s.radius
  if distSq < combinedRadius * combinedRadius ∧ 0.01 < distSq then
    let dist := env.sq distSq
    let nx := dx / dist
    let ny := dy / dist
    let overlap := combinedRadius - dist
    let p2 : V2 := ⟨p.x + nx * overlap, p.y + ny * overlap⟩
    let dot := v.x * nx + v.y * ny
    if dot < 0 then
      let s2 :=
        if s.moveable then
          let particleMass : ℚ := 1
          let circleMass := if s.mass = 0 then 1000 else s.mass
          let momentumTransfer := 2 * dot * particleMass / (particleMass + circleMass)
          { s with vx := s.vx - nx * momentumTransfer * 0.5,
                   vy := s.vy - ny * momentumTransfer * 0.5 }
        else s
      (p2, ⟨(v.x - 2 * dot * nx) * damping, (v.y - 2 * dot * ny) * damping⟩, s2)
    else (p2, v, s)
  else (p, v, s)

/-- handleShapeCollisions: resolve the particle against every registered shape
in list order, threading the position, velocity and the (mutable) shape list.
A rect with truthy rotating and rotationSpeed uses the rotating handler,
otherwise the static one; circles use the circle handler. -/
def handleShapeCollisions (env : Env) (damping r : ℚ) :
    V2 → V2 → List Shape → V2 × V2 × List Shape
  | p, v, [] => (p, v, [])
  | p, v, s :: rest =>
    match s.kind with
    | ShapeKind.rect =>
      let pv :=
        if s.rotating && decide (s.rotationSpeed ≠ 0) then
          handleRotatingRectCollision env damping r p v s
        else
          handleStaticRectCollision env damping r p v s
      let res := handleShapeCollisions env damping r pv.1 pv.2 rest
      (res.1, res.2.1, s :: res.2.2)
    | ShapeKind.circle =>
      let pvs := handleCircleCollision env damping r p v s
      let res := handleShapeCollisions env damping r pvs.1 pvs.2.1 rest
      (res.1, res.2.1, pvs.2.2 :: res.2.2)

/-- handleCollision (particle pair narrow phase): when the center distance is
between the noise floor and the collision distance, separate the pair
symmetrically by half the overlap each and, when approaching, apply the
impulse dvDotN * damping to both particles in opposite directions. -/
def handleCollision (env : Env) (damping collisionDist : ℚ)
    (p1 v1 p2 v2 : V2) : (V2 × V2) × (V2 × V2) :=
  let dx := p2.x - p1.x
  let dy := p2.y - p1.y
  let distSq := dx * dx + dy * dy
  if distSq < collisionDist * collisionDist ∧ 0.01 < distSq then
    let dist := env.sq distSq
    let nx := dx / dist
    let ny := dy / dist
    let overlap := collisionDist - dist
    let separationX := nx * overlap * 0.5
    let separationY := ny * overlap * 0.5
    let q1 : V2 := ⟨p1.x - separationX, p1.y - separationY⟩
    let q2 : V2 := ⟨p2.x + separationX, p2.y + separationY⟩
    let dvx := v2.x - v1.x
    let dvy := v2.y - v1.y
    let dvDotN := dvx * nx + dvy * ny
    if dvDotN < 0 then
      let impulse := dvDotN * damping
      ((q1, ⟨v1.x + nx * impulse, v1.y + ny * impulse⟩),
       (q2, ⟨v2.x - nx * impulse, v2.y - ny * impulse⟩))
    else ((q1, v1), (q2, v2))
  else ((p1, v1), (p2, v2))

/-- lineIntersectsLine: parametric segment-segment intersection with the
source guard abs(denom) < 0.0001 treated as no intersection. -/
def lineIntersectsLine (x1 y1 x2 y2 x3 y3 x4 y4 : ℚ) : Bool :=
  let denom := (x1 - x2) * (y3 - y4) - (y1 - y2) * (x3 - x4)
  if |denom| < 0.0001 then false
  else
    let t := ((x1 - x3) * (y3 - y4) - (y1 - y3) * (x3 - x4)) / denom
    let u := -((x1 - x2) * (y1 - y3) - (y1 - y2) * (x1 - x3)) / denom
    decide (0 ≤ t) && decide (t ≤ 1) && decide (0 ≤ u) && decide (u ≤ 1)

/-- lineIntersectsRect: either endpoint inside the rectangle, or the segment
crosses one of the four edges. -/
def lineIntersectsRect (x1 y1 x2 y2 rx ry rw rh : ℚ) : Bool :=
  (decide (rx ≤ x1) && decide (x1 ≤ rx + rw) && decide (ry ≤ y1) && decide (y1 ≤ ry + rh)) ||
  (decide (rx ≤ x2) && decide (x2 ≤ rx + rw) && decide (ry ≤ y2) && decide (y2 ≤ ry + rh)) ||
  lineIntersectsLine x1 y1 x2 y2 rx ry (rx + rw) ry ||
  lineIntersectsLine x1 y1 x2 y2 (rx + rw) ry (rx + rw) (ry + rh) ||
  lineIntersectsLine x1 y1 x2 y2 (rx + rw) (ry + rh) rx (ry + rh) ||
  lineIntersectsLine x1 y1 x2 y2 rx (ry + rh) rx ry

/-- checkSensorHit: when the pre to post motion segment touches the sensor
rectangle, bin the segment midpoint (when it lies inside the sensor) into a
resolution sized cell and add 1.0 to that cell, clamped at 20. -/
def checkSensorHit (sen : Sensor) (sensorResolution : ℚ) (hits : List ℚ)
    (x1 y1 x2 y2 : ℚ) : List ℚ :=
  if lineIntersectsRect x1 y1 x2 y2 sen.x sen.y sen.width sen.height then
    let hitX := (x2 + x1) / 2
    let hitY := (y2 + y1) / 2
    if sen.x ≤ hitX ∧ hitX < sen.x + sen.width ∧
       sen.y ≤ hitY ∧ hitY < sen.y + sen.height then
      let cellX : ℤ := ⌊(hitX - sen.x) / sensorResolution⌋
      let cellY : ℤ := ⌊(hitY - sen.y) / sensorResolution⌋
      let width : ℤ := ⌈sen.width / sensorResolution⌉
      let index := cellY * width + cellX
      if 0 ≤ index ∧ index < hits.length then
        hits.set index.toNat (min (hits.getD index.toNat 0 + 1) 20)
      else hits
    else hits
  else hits

/-- Sensor decay applied at the start of every update: each cell loses 1% of
its value. -/
def decaySensor (hits : List ℚ) : List ℚ :=
  hits.map (fun c => c * 0.99)

/-- Motion, damping and boundary handling of a single shape inside
updateShapes: rotating shapes advance their angle, moveable circles advance by
their velocity, are damped by 0.995 and bounce off the domain walls with
coefficient 0.8. -/
def updateShape1 (boundsW boundsH dt : ℚ) (s : Shape) : Shape :=
  let s :=
    if s.rotating && decide (s.rotationSpeed ≠ 0) then
      { s with angle := s.angle + s.rotationSpeed * dt }
    else s
  if s.kind = ShapeKind.circle && s.moveable then
    let sx := s.x + s.vx * dt
    let sy := s.y + s.vy * dt
    let svx := s.vx * 0.995
    let svy := s.vy * 0.995
    let (sx, svx) :=
      if sx - s.radius ≤ 0 then (s.radius, |svx| * 0.8)
      else if boundsW ≤ sx + s.radius then (boundsW - s.radius, -|svx| * 0.8)
      else (sx, svx)
    let (sy, svy) :=
      if sy - s.radius ≤ 0 then (s.radius, |svy| * 0.8)
      else if boundsH ≤ sy + s.radius then (boundsH - s.radius, -|svy| * 0.8)
      else (sy, svy)
    { s with x := sx, y := sy, vx := svx, vy := svy }
  else s

/-- Pairwise elastic response between two moveable circles (the body of the
double loop in checkShapeCollisions), with mass ratio separation and impulse
scaled by 0.9. -/
def circlePairStep (env : Env) (c1 c2 : Shape) : Shape × Shape :=
  let dx := c2.x - c1.x
  let dy := c2.y - c1.y
  let distSq := dx * dx + dy * dy
  let minDist := c1.radius + c2.radius
  if distSq < minDist * minDist ∧ 0.01 < distSq then
    let dist := env.sq distSq
    let nx := dx / dist
    let ny := dy / dist
    let overlap := minDist - dist
    let totalMass := c1.mass + c2.mass
    let ratio1 := c2.mass / totalMass
    let ratio2 := c1.mass / totalMass
    let c1 := { c1 with x := c1.x - nx * overlap * ratio1,
                        y := c1.y - ny * overlap * ratio1 }
    let c2 := { c2 with x := c2.x + nx * overlap * ratio2,
                        y := c2.y + ny * overlap * ratio2 }
    let dvx := c2.vx - c1.vx
    let dvy := c2.vy - c1.vy
    let dvDotN := dvx * nx + dvy * ny
    if dvDotN < 0 then
      let impulse := 2 * dvDotN / totalMass
      ({ c1 with vx := c1.vx + nx * impulse * c2.mass * 0.9,
                 vy := c1.vy + ny * impulse * c2.mass * 0.9 },
       { c2 with vx := c2.vx - nx * impulse * c1.mass * 0.9,
                 vy := c2.vy - ny * impulse * c1.mass * 0.9 })
    else (c1, c2)
  else (c1, c2)

/-- One outer iteration of a sequential pairwise pass: interact the head with
every element of the tail in order, threading both. -/
def pairOnePass (f : Shape → Shape → Shape × Shape) :
    Shape → List Shape → Shape × List Shape
  | a, [] => (a, [])
  | a, b :: t =>
    let ab := f a b
    let res := pairOnePass f ab.1 t
    (res.1, ab.2 :: res.2)

/-- Fueled form of the sequential i < j pairwise pass; the fuel is the list
length (pairOnePass preserves length, so the fuel is always exact). -/
def pairwisePassAux (f : Shape → Shape → Shape × Shape) :
    ℕ → List Shape → List Shape
  | 0, l => l
  | _ + 1, [] => []
  | n + 1, a :: rest =>
    let hr := pairOnePass f a rest
    hr.1 :: pairwisePassAux f n hr.2

/-- Sequential i < j pairwise pass over a list, equivalent to the double index
loop of checkShapeCollisions acting on the shared mutable shape records. -/
def pairwisePass (f : Shape → Shape → Shape × Shape) (l : List Shape) :
    List Shape :=
  pairwisePassAux f l.length l

/-- checkShapeCollisions: only pairs in which both shapes are moveable circles
interact (the source filters those into an array of references first, which is
order preserving). -/
def checkShapeCollisions (env : Env) (shapes : List Shape) : List Shape :=
  pairwisePass
    (fun c1 c2 =>
      if (c1.kind = ShapeKind.circle && c1.moveable) &&
         (c2.kind = ShapeKind.circle && c2.moveable) then
        circlePairStep env c1 c2
      else (c1, c2))
    shapes

/-- updateShapes: per shape motion then pairwise moveable circle collisions. -/
def updateShapes (env : Env) (boundsW boundsH dt : ℚ) (shapes : List Shape) :
    List Shape :=
  checkShapeCollisions env (shapes.map (updateShape1 boundsW boundsH dt))

/-- Insertion into the spatial hash map, preserving JS Map insertion order:
a known key appends the particle index to its bucket, a new key is appended at
the end. -/
def insertGrid (g : List ((ℤ × ℤ) × List ℕ)) (key : ℤ × ℤ) (i : ℕ) :
    List ((ℤ × ℤ) × List ℕ) :=
  match g with
  | [] => [(key, [i])]
  | (k, l) :: rest =>
    if k = key then (k, l ++ [i]) :: rest
    else (k, l) :: insertGrid rest key i

/-- buildSpatialHash: bucket every particle index by floor(position/cellSize),
iterating particles in index order. -/
def buildSpatialHash (cellSize : ℚ) (ps : List V2) : List ((ℤ × ℤ) × List ℕ) :=
  ps.enum.foldl
    (fun g ip => insertGrid g (⌊ip.2.x / cellSize⌋, ⌊ip.2.y / cellSize⌋) ip.1) []

/-- Bucket lookup in the spatial hash. -/
def lookupCell (grid : List ((ℤ × ℤ) × List ℕ)) (key : ℤ × ℤ) : List ℕ :=
  match grid.find? (fun kl => kl.1 = key) with
  | some kl => kl.2
  | none => []

/-- The forward neighbor cells examined for every particle: right, down,
down-right, down-left. -/
def neighborKeys (key : ℤ × ℤ) : List (ℤ × ℤ) :=
  [(key.1 + 1, key.2), (key.1, key.2 + 1),
   (key.1 + 1, key.2 + 1), (key.1 - 1, key.2 + 1)]

/-- Candidate pairs contributed by one bucket, in source order: for each
particle of the bucket, first the later particles of the same bucket and then
every particle of each of the four forward neighbor buckets. -/
def pairsForCell (grid : List ((ℤ × ℤ) × List ℕ)) (key : ℤ × ℤ) :
    List ℕ → List (ℕ × ℕ)
  | [] => []
  | p1 :: rest =>
    rest.map (fun p2 => (p1, p2)) ++
    (neighborKeys key).foldr
      (fun nk acc => (lookupCell grid nk).map (fun p2 => (p1, p2)) ++ acc) [] ++
    pairsForCell grid key rest

/-- All candidate pairs of one broad phase pass, in the iteration order of
detectCollisionsOptimized (buckets in insertion order). -/
def collisionPairs (grid : List ((ℤ × ℤ) × List ℕ)) : List (ℕ × ℕ) :=
  grid.foldr (fun kl acc => pairsForCell grid kl.1 kl.2 ++ acc) []

/-- Apply the narrow phase to one candidate pair, reading and writing the
position and velocity lists at the two indices. -/
def applyPairCollision (env : Env) (damping collisionDist : ℚ)
    (pv : List V2 × List V2) (pr : ℕ × ℕ) : List V2 × List V2 :=
  let p1 := pv.1.getD pr.1 ⟨0, 0⟩
  let v1 := pv.2.getD pr.1 ⟨0, 0⟩
  let p2 := pv.1.getD pr.2 ⟨0, 0⟩
  let v2 := pv.2.getD pr.2 ⟨0, 0⟩
  let res := handleCollision env damping collisionDist p1 v1 p2 v2
  ((pv.1.set pr.1 res.1.1).set pr.2 res.2.1,
   (pv.2.set pr.1 res.1.2).set pr.2 res.2.2)

/-- detectCollisionsOptimized: build the hash from the current positions, then
run the narrow phase over every candidate pair in order (collision distance is
twice the particle radius). -/
def detectCollisionsOptimized (env : Env) (damping particleRadius cellSize : ℚ)
    (ps vs : List V2) : List V2 × List V2 :=
  let grid := buildSpatialHash cellSize ps
  (collisionPairs grid).foldl
    (applyPairCollision env damping (particleRadius * 2)) (ps, vs)

/-- 3x3 box blur of smoothForceField; edge cells average only over in-bounds
neighbors. -/
def smoothForceField (w h : ℕ) (field : List ℚ) : List ℚ :=
  (List.range (w * h)).map (fun idx =>
    let cx : ℤ := (idx % w : ℕ)
    let cy : ℤ := (idx / w : ℕ)
    let offs : List ℤ := [-1, 0, 1]
    let acc := offs.foldr (fun dy a =>
      offs.foldr (fun dx b =>
        let nx := cx + dx
        let ny := cy + dy
        if 0 ≤ nx ∧ nx < (w : ℤ) ∧ 0 ≤ ny ∧ ny < (h : ℤ) then
          (b.1 + field.getD (ny * w + nx).toNat 0, b.2 + 1)
        else b) a) ((0 : ℚ), (0 : ℕ))
    acc.1 / (acc.2 : ℚ))

/-- updateForceField: clear the grid, bin each particle speed (scaled by 0.01)
into its containing cell, then smooth.  The speed is Math.sqrt of the squared
speed, via the sqrt oracle. -/
def updateForceField (env : Env) (st : SimState) : SimState :=
  match st.forceField with
  | none => st
  | some field0 =>
    let field := (List.replicate field0.length (0 : ℚ))
    let field := ((st.positions.zip st.velocities).take st.particleCount).foldl
      (fun f pv =>
        let cellX : ℤ := ⌊pv.1.x / st.forceFieldResolution⌋
        let cellY : ℤ := ⌊pv.1.y / st.forceFieldResolution⌋
        if 0 ≤ cellX ∧ cellX < (st.forceFieldWidth : ℤ) ∧
           0 ≤ cellY ∧ cellY < (st.forceFieldHeight : ℤ) then
          let idx := (cellY * st.forceFieldWidth + cellX).toNat
          let speed := env.sq (pv.2.x * pv.2.x + pv.2.y * pv.2.y)
          f.set idx (f.getD idx 0 + speed * 0.01)
        else f) field
    let sm := smoothForceField st.forceFieldWidth st.forceFieldHeight field
    { st with forceField := some sm }

/-- Fueled form of the accumulator draining while loop of updateEmitter:
while (acc >= interval) consume one interval and count one emission.  The fuel
passed by updateEmitter provably exceeds the number of iterations. -/
def countEmit : ℕ → ℚ → ℚ → ℕ × ℚ
  | 0, acc, _ => (0, acc)
  | fuel + 1, acc, interval =>
    if interval ≤ acc then
      let r := countEmit fuel (acc - interval) interval
      (r.1 + 1, r.2)
    else (0, acc)

/-- emitParticle: place the particle at a random offset of at most half the
emitter radius from the source at a random angle, with velocity along that
same angle at the configured speed jittered by plus or minus 20%.  n indexes
the random oracle (one fresh draw set per emission). -/
def emitParticle (env : Env) (em : Emitter) (n : ℕ) (index : ℕ)
    (ps vs : List V2) : List V2 × List V2 :=
  let angle := env.rndA n * (2 * env.piVal)
  let offsetRadius := env.rndB n * em.radius * 0.5
  let px := em.x + env.cosOf angle * offsetRadius
  let py := em.y + env.sinOf angle * offsetRadius
  let speed := em.particleSpeed * (0.8 + env.rndC n * 0.4)
  (ps.set index ⟨px, py⟩,
   vs.set index ⟨env.cosOf angle * speed, env.sinOf angle * speed⟩)

/-- Emission for loop of updateEmitter: when the pool is full (maxParticles
truthy and reached) overwrite slot 0, otherwise activate the next unused slot
and advance the cursor.  Returns (emission counter, active count, positions,
velocities). -/
def emitLoop (env : Env) (em : Emitter) (particleCount : ℕ) :
    ℕ → ℕ → ℕ → List V2 → List V2 → ℕ × ℕ × List V2 × List V2
  | 0, n, active, ps, vs => (n, active, ps, vs)
  | k + 1, n, active, ps, vs =>
    if em.maxParticles ≠ 0 ∧ em.maxParticles ≤ active then
      let r := emitParticle env em n 0 ps vs
      emitLoop env em particleCount k (n + 1) active r.1 r.2
    else if active < particleCount then
      let r := emitParticle env em n active ps vs
      emitLoop env em particleCount k (n + 1) (active + 1) r.1 r.2
    else emitLoop env em particleCount k n active ps vs

/-- updateEmitter: accumulate the scaled dt, drain it in whole emission
intervals (1/particlesPerSecond), and emit that many particles. -/
def updateEmitter (env : Env) (st : SimState) (dt : ℚ) : SimState :=
  match st.emitter with
  | none => st
  | some em =>
    if em.particlesPerSecond = 0 then st
    else
      let acc := st.emitterAccumulator + dt
      let interval := 1 / em.particlesPerSecond
      let fuel := (⌊acc / interval⌋).toNat + 1
      let ke := countEmit fuel acc interval
      let r := emitLoop env em st.particleCount ke.1 st.emissionCount
        st.activeParticles st.positions st.velocities
      { st with emitterAccumulator := ke.2, emissionCount := r.1,
                activeParticles := r.2.1, positions := r.2.2.1,
                velocities := r.2.2.2 }

/-- setEmitter: attaching an emitter with truthy maxParticles reallocates the
pool to that capacity, parks every slot off-domain at (-1000, -1000) with zero
velocity and resets the active cursor; the fractional accumulator is always
reset. -/
def setEmitter (st : SimState) (em : Option Emitter) : SimState :=
  let st := { st with emitter := em, emitterAccumulator := 0 }
  match em with
  | some e =>
    if e.maxParticles ≠ 0 then
      { st with particleCount := e.maxParticles,
                positions := List.replicate e.maxParticles ⟨-1000, -1000⟩,
                velocities := List.replicate e.maxParticles ⟨0, 0⟩,
                activeParticles := 0 }
    else st
  | none => st

/-- initSensor: allocate the hit grid of size ceil(width/res) * ceil(height/res),
zero filled. -/
def initSensor (st : SimState) : SimState :=
  match st.sensor with
  | none => st
  | some sen =>
    let w := (⌈sen.width / st.sensorResolution⌉).toNat
    let h := (⌈sen.height / st.sensorResolution⌉).toNat
    { st with sensorHits := some (List.replicate (w * h) 0) }

/-- initCirclePhysics: give every moveable circle a default velocity of zero
(a no-op here, velocities being total fields) and, when the mass field is
falsy, the default mass pi * radius^2 * 0.01. -/
def initCirclePhysics (env : Env) (st : SimState) : SimState :=
  { st with shapes := st.shapes.map (fun s =>
      if s.kind = ShapeKind.circle && s.moveable then
        if s.mass = 0 then
          { s with mass := env.piVal * s.radius * s.radius * 0.01 }
        else s
      else s) }

/-- initForceField: when visualization is enabled, allocate the zero grid of
ceil(bounds/resolution) cells per axis. -/
def initForceField (st : SimState) : SimState :=
  if st.showForceField then
    let w := (⌈st.boundsW / st.forceFieldResolution⌉).toNat
    let h := (⌈st.boundsH / st.forceFieldResolution⌉).toNat
    { st with forceFieldWidth := w, forceFieldHeight := h,
              forceField := some (List.replicate (w * h) 0) }
  else st

/-- init: when an emitter with truthy capacity already owns the (non-null)
particle arrays, skip particle allocation and only refresh the sensor grid,
circle defaults and force field; otherwise allocate zero filled arrays and
dispatch on the placement mode string (a string matching no branch, such as
"static", leaves the zero filled arrays untouched). -/
def init (env : Env) (st : SimState) (initType : String) : SimState :=
  let emitterOwns :=
    match st.emitter with
    | some em => decide (em.maxParticles ≠ 0) && decide (st.positions ≠ [])
    | none => false
  if emitterOwns then
    initForceField (initCirclePhysics env (if st.sensor.isSome then initSensor st else st))
  else
    let st := { st with positions := List.replicate st.particleCount ⟨0, 0⟩,
                        velocities := List.replicate st.particleCount ⟨0, 0⟩ }
    let st :=
      if initType = "center" then
        let r := initCenter env st.shapes st.boundsW st.boundsH st.particleCount
        { st with particleCount := r.1, positions := r.2.1, velocities := r.2.2 }
      else if initType = "left" then
        let r := initLeft env st.shapes st.boundsH st.particleCount
        { st with particleCount := r.1, positions := r.2.1, velocities := r.2.2 }
      else if initType = "random" then
        let r := initRandom env st.shapes st.boundsW st.boundsH st.particleCount
        { st with particleCount := r.1, positions := r.2.1, velocities := r.2.2 }
      else st
    let st := if st.sensor.isSome then initSensor st else st
    initForceField (initCirclePhysics env st)

/-- setShowForceField: set the flag; allocate the grid lazily when enabling
and none is present.  Disabling touches nothing but the flag. -/
def setShowForceField (st : SimState) (show_ : Bool) : SimState :=
  let st := { st with showForceField := show_ }
  if show_ && st.forceField.isNone then initForceField st else st

/-- Body of the per particle integration loop of update: record the old
position, integrate by velocity, test the motion segment against the sensor,
apply the boundary policy (wrap: one domain width correction per axis;
reflect: clamp into [radius, bound - radius] and damp-reflect the offending
velocity component), then resolve against every shape.  The loop state is
(positions, velocities, shapes, sensorHits). -/
def updateOneParticle (env : Env) (wrap : Bool)
    (boundsW boundsH r damping dt sensorResolution : ℚ) (sensor : Option Sensor)
    (i : ℕ) (acc : List V2 × List V2 × List Shape × Option (List ℚ)) :
    List V2 × List V2 × List Shape × Option (List ℚ) :=
  let ps := acc.1
  let vs := acc.2.1
  let shapes := acc.2.2.1
  let hits := acc.2.2.2
  let p := ps.getD i ⟨0, 0⟩
  let v := vs.getD i ⟨0, 0⟩
  let oldP := p
  let p : V2 := ⟨p.x + v.x * dt, p.y + v.y * dt⟩
  let hits :=
    match sensor, hits with
    | some sen, some hg =>
        some (checkSensorHit sen sensorResolution hg oldP.x oldP.y p.x p.y)
    | _, _ => hits
  let pv :=
    if wrap then
      let px := if p.x < 0 then p.x + boundsW
                else if boundsW ≤ p.x then p.x - boundsW else p.x
      let py := if p.y < 0 then p.y + boundsH
                else if boundsH ≤ p.y then p.y - boundsH else p.y
      ((⟨px, py⟩ : V2), v)
    else
      let minX := r
      let minY := r
      let maxX := boundsW - r
      let maxY := boundsH - r
      let (px, vx) :=
        if p.x ≤ minX then (minX, |v.x| * damping)
        else if maxX ≤ p.x then (maxX, -|v.x| * damping)
        else (p.x, v.x)
      let (py, vy) :=
        if p.y ≤ minY then (minY, |v.y| * damping)
        else if maxY ≤ p.y then (maxY, -|v.y| * damping)
        else (p.y, v.y)
      ((⟨px, py⟩ : V2), (⟨vx, vy⟩ : V2))
  let res := handleShapeCollisions env damping r pv.1 pv.2 shapes
  (ps.set i res.1, vs.set i res.2.1, res.2.2, hits)

/-- update: advance time by the speed scaled dt, update shapes, run the
emitter, rebuild the force field when enabled, decay the sensor, run the per
particle loop, then the broad plus narrow particle pair phase. -/
def update (env : Env) (st : SimState) (deltaTime : ℚ) : SimState :=
  let dt := deltaTime * st.speedMultiplier
  let st := { st with time := st.time + dt }
  let st := { st with shapes := updateShapes env st.boundsW st.boundsH dt st.shapes }
  let st := updateEmitter env st dt
  let st := if st.showForceField then updateForceField env st else st
  let st :=
    match st.sensorHits with
    | some hg => { st with sensorHits := some (decaySensor hg) }
    | none => st
  let loopRes := (List.range st.particleCount).foldl
    (fun acc i =>
      updateOneParticle env st.wrapEdges st.boundsW st.boundsH st.particleRadius
        st.damping dt st.sensorResolution st.sensor i acc)
    (st.positions, st.velocities, st.shapes, st.sensorHits)
  let st := { st with positions := loopRes.1, velocities := loopRes.2.1,
                      shapes := loopRes.2.2.1, sensorHits := loopRes.2.2.2 }
  let pv := detectCollisionsOptimized env st.damping st.particleRadius
    st.cellSize st.positions st.velocities
  { st with positions := pv.1, velocities := pv.2 }

/-- Modelled from the spec: the placement policy named static is described as
"uniform over the domain, zero initial velocity - particles only move after
being struck"; the source init has no branch for it, so this definition
follows the words of the spec, reusing the uniform candidate stream of
initRandom with zero velocities. -/
def initStatic_spec (env : Env) (shapes : List Shape) (boundsW boundsH : ℚ)
    (count : ℕ) : ℕ × List V2 × List V2 :=
  let cand : ℕ → V2 := fun a => ⟨env.rndA a * boundsW, env.rndB a * boundsH⟩
  runPlacement shapes cand (fun _ => ⟨0, 0⟩) count

/-- Oracle environment whose sqrt values are fixed only where a given theorem
evaluates them; all other oracle entries are irrelevant to the computations in
which it is used. -/
def sqEnv (f : ℚ → ℚ) : Env :=
  { sq := f, cosOf := fun _ => 0, sinOf := fun _ => 0, piVal := 0,
    rndA := fun _ => 0, rndB := fun _ => 0, rndC := fun _ => 0,
    rndD := fun _ => 0 }

/-- Concrete absorbing circle used by the C4 theorems. -/
def c4AbsCircle : Shape :=
  { kind := ShapeKind.circle, x := 0, y := 0, radius := 10, absorb := true }

/-- The same circle without the absorb flag. -/
def c4PlainCircle : Shape :=
  { kind := ShapeKind.circle, x := 0, y := 0, radius := 10, absorb := false }

/-- Concrete moveable circle used by the C5 theorems, moving toward the
resting particle of the counterexample. -/
def c5Circle : Shape :=
  { kind := ShapeKind.circle, x := 0, y := 0, radius := 10, vx := 5, vy := 0,
    mass := 100, moveable := true }

/-- Base concrete simulation state shared by the concrete theorems: one
particle, 40x40 bounds, no optional subsystem enabled (the constructor values
of the source scaled down to a small domain). -/
def baseState : SimState :=
  { particleCount := 1, positions := [⟨0, 0⟩], velocities := [⟨0, 0⟩],
    speedMultiplier := 1, damping := 0.98, particleRadius := 2,
    boundsW := 40, boundsH := 40, cellSize := 5, shapes := [], time := 0,
    sensor := none, sensorHits := none, sensorResolution := 1,
    showForceField := false, forceFieldResolution := 20, forceField := none,
    forceFieldWidth := 0, forceFieldHeight := 0, emitter := none,
    emitterAccumulator := 0, activeParticles := 0, wrapEdges := false,
    emissionCount := 0 }

/-- Concrete oracle whose first uniform draws are one half, used by the C8
counterexample. -/
def c8Env : Env :=
  { sqEnv (fun _ => 0) with rndA := fun _ => 1/2, rndB := fun _ => 1/2 }

/-- Emitter of the C7 scenario: source at (50,50), 10 particles per second,
pool capacity 5. -/
def c7Emitter : Emitter :=
  { x := 50, y := 50, radius := 5, particlesPerSecond := 10,
    particleSpeed := 100, maxParticles := 5 }

/-- Static rectangle touching the right wall region, used by the C1
counterexample. -/
def c1Rect : Shape :=
  { kind := ShapeKind.rect, x := 30, y := 0, width := 7, height := 20 }

/-- State of the C1 counterexample: reflect mode, one particle resting at the
right clamp position, one static rectangle whose right edge is one unit away. -/
def c1State : SimState :=
  { baseState with positions := [⟨38, 10⟩], velocities := [⟨0, 0⟩],
                   shapes := [c1Rect] }

/-- State of the C6 counterexample: wrap mode, one particle crossing more
than one domain width in a single step. -/
def c6State : SimState :=
  { baseState with wrapEdges := true, positions := [⟨0, 10⟩],
                   velocities := [⟨80, 0⟩] }

/-- State of the C6 witness: wrap mode, one particle crossing the right edge
by five units in one step. -/
def c6WitState : SimState :=
  { baseState with wrapEdges := true, positions := [⟨35, 10⟩],
                   velocities := [⟨10, 0⟩] }

/-- C3: the narrow phase separates an overlapping pair symmetrically by half
the penetration each; when the pair is approaching it applies the impulse
dvDotN * damping (not an impulse scaled by restitution 0.5 + damping*0.5);
with damping = 1 the total kinetic energy of the pair is conserved exactly,
and with damping = 0 the velocities are left unchanged. -/
theorem C3_pair_collision (env : Env) (damping collisionDist : ℚ) (p1 v1 p2 v2 : V2)
    (d : ℚ)
    (hlt : (p2.x - p1.x) * (p2.x - p1.x) + (p2.y - p1.y) * (p2.y - p1.y) <
      collisionDist * collisionDist)
    (hgt : (0.01 : ℚ) <
      (p2.x - p1.x) * (p2.x - p1.x) + (p2.y - p1.y) * (p2.y - p1.y))
    (hsq : env.sq ((p2.x - p1.x) * (p2.x - p1.x) + (p2.y - p1.y) * (p2.y - p1.y)) = d)
    (hd2 : d * d = (p2.x - p1.x) * (p2.x - p1.x) + (p2.y - p1.y) * (p2.y - p1.y))
    (hdpos : 0 < d) :
    (handleCollision env damping collisionDist p1 v1 p2 v2).1.1 =
      ⟨p1.x - (p2.x - p1.x) / d * (collisionDist - d) * 0.5,
       p1.y - (p2.y - p1.y) / d * (collisionDist - d) * 0.5⟩ ∧
    (handleCollision env damping collisionDist p1 v1 p2 v2).2.1 =
      ⟨p2.x + (p2.x - p1.x) / d * (collisionDist - d) * 0.5,
       p2.y + (p2.y - p1.y) / d * (collisionDist - d) * 0.5⟩ ∧
    ((v2.x - v1.x) * ((p2.x - p1.x) / d) + (v2.y - v1.y) * ((p2.y - p1.y) / d) < 0 →
      (handleCollision env damping collisionDist p1 v1 p2 v2).1.2 =
        ⟨v1.x + (p2.x - p1.x) / d *
            (((v2.x - v1.x) * ((p2.x - p1.x) / d) +
              (v2.y - v1.y) * ((p2.y - p1.y) / d)) * damping),
         v1.y + (p2.y - p1.y) / d *
            (((v2.x - v1.x) * ((p2.x - p1.x) / d) +
              (v2.y - v1.y) * ((p2.y - p1.y) / d)) * damping)⟩ ∧
      (handleCollision env damping collisionDist p1 v1 p2 v2).2.2 =
        ⟨v2.x - (p2.x - p1.x) / d *
            (((v2.x - v1.x) * ((p2.x - p1.x) / d) +
              (v2.y - v1.y) * ((p2.y - p1.y) / d)) * damping),
         v2.y - (p2.y - p1.y) / d *
            (((v2.x - v1.x) * ((p2.x - p1.x) / d) +
              (v2.y - v1.y) * ((p2.y - p1.y) / d)) * damping)⟩) ∧
    (damping = 1 →
      (handleCollision env damping collisionDist p1 v1 p2 v2).1.2.x ^ 2 +
      (handleCollision env damping collisionDist p1 v1 p2 v2).1.2.y ^ 2 +
      (handleCollision env damping collisionDist p1 v1 p2 v2).2.2.x ^ 2 +
      (handleCollision env damping collisionDist p1 v1 p2 v2).2.2.y ^ 2 =
      v1.x ^ 2 + v1.y ^ 2 + v2.x ^ 2 + v2.y ^ 2) ∧
    (damping = 0 →
      (handleCollision env damping collisionDist p1 v1 p2 v2).1.2 = v1 ∧
      (handleCollision env damping collisionDist p1 v1 p2 v2).2.2 = v2) := by
  have hcond : (p2.x - p1.x) * (p2.x - p1.x) + (p2.y - p1.y) * (p2.y - p1.y) <
      collisionDist * collisionDist ∧
      (0.01 : ℚ) < (p2.x - p1.x) * (p2.x - p1.x) + (p2.y - p1.y) * (p2.y - p1.y) :=
    ⟨hlt, hgt⟩
  have hne : d ≠ 0 := ne_of_gt hdpos
  have hd2' : (p2.x - p1.x) ^ 2 + (p2.y - p1.y) ^ 2 = d ^ 2 := by
    nlinarith [hd2]
  have hunit : ((p2.x - p1.x) / d) ^ 2 + ((p2.y - p1.y) / d) ^ 2 = 1 := by
    rw [div_pow, div_pow, ← add_div, hd2']
    exact div_self (pow_ne_zero 2 hne)
  refine ⟨?_, ?_, fun happ => ?_, fun hdamp => ?_, fun hdamp => ?_⟩
  · simp only [handleCollision, hsq, if_pos hcond]
    split_ifs <;> rfl
  · simp only [handleCollision, hsq, if_pos hcond]
    split_ifs <;> rfl
  · simp only [handleCollision, hsq, if_pos hcond, if_pos happ]
    exact ⟨by trivial, by trivial⟩
  · subst hdamp
    simp only [handleCollision, hsq, if_pos hcond]
    split_ifs with h
    · dsimp only
      linear_combination (2 * ((v2.x - v1.x) * ((p2.x - p1.x) / d) +
        (v2.y - v1.y) * ((p2.y - p1.y) / d)) ^ 2) * hunit
    · rfl
  · subst hdamp
    simp only [handleCollision, hsq, if_pos hcond]
    split_ifs with h
    · constructor <;> · dsimp only; simp
    · exact ⟨rfl, rfl⟩

/-- C3 witness: a concrete overlapping approaching pair at damping 1, with
distance 3 below the collision distance 4, conserving kinetic energy 1. -/
theorem C3_witness :
    (handleCollision (sqEnv fun q => if q = 9 then 3 else 0) 1 4
        ⟨0, 0⟩ ⟨1, 0⟩ ⟨3, 0⟩ ⟨0, 0⟩).1.2.x ^ 2 +
    (handleCollision (sqEnv fun q => if q = 9 then 3 else 0) 1 4
        ⟨0, 0⟩ ⟨1, 0⟩ ⟨3, 0⟩ ⟨0, 0⟩).1.2.y ^ 2 +
    (handleCollision (sqEnv fun q => if q = 9 then 3 else 0) 1 4
        ⟨0, 0⟩ ⟨1, 0⟩ ⟨3, 0⟩ ⟨0, 0⟩).2.2.x ^ 2 +
    (handleCollision (sqEnv fun q => if q = 9 then 3 else 0) 1 4
        ⟨0, 0⟩ ⟨1, 0⟩ ⟨3, 0⟩ ⟨0, 0⟩).2.2.y ^ 2 = 1 := by
  have h := (C3_pair_collision (sqEnv fun q => if q = 9 then 3 else 0) 1 4
    ⟨0, 0⟩ ⟨1, 0⟩ ⟨3, 0⟩ ⟨0, 0⟩ 3 (by norm_num) (by norm_num)
    (by norm_num [sqEnv]) (by norm_num) (by norm_num)).2.2.2.1 rfl
  simpa using h

/-- C3 counterexample: at damping = 0 an approaching overlapping pair keeps
both velocities unchanged (the impulse dvDotN * damping vanishes), so the
relative normal velocity is not strictly reduced toward zero, and the claimed
restitution 0.5 + damping*0.5 = 0.5 is not applied; the pair is genuinely
colliding, its positions being separated. -/
theorem C3_counterexample :
    (handleCollision (sqEnv fun q => if q = 9 then 3 else 0) 0 4
        ⟨0, 0⟩ ⟨1, 0⟩ ⟨3, 0⟩ ⟨0, 0⟩).1.2 = ⟨1, 0⟩ ∧
    (handleCollision (sqEnv fun q => if q = 9 then 3 else 0) 0 4
        ⟨0, 0⟩ ⟨1, 0⟩ ⟨3, 0⟩ ⟨0, 0⟩).2.2 = ⟨0, 0⟩ ∧
    (handleCollision (sqEnv fun q => if q = 9 then 3 else 0) 0 4
        ⟨0, 0⟩ ⟨1, 0⟩ ⟨3, 0⟩ ⟨0, 0⟩).1.1 = ⟨-1/2, 0⟩ ∧
    (handleCollision (sqEnv fun q => if q = 9 then 3 else 0) 0 4
        ⟨0, 0⟩ ⟨1, 0⟩ ⟨3, 0⟩ ⟨0, 0⟩).2.1 = ⟨7/2, 0⟩ := by
  norm_num [handleCollision, sqEnv]


/-- C4 (amended): the absorb flag is never consulted by the circle collision
response: the result on a shape with any value of the flag coincides with the
result on the same shape with the flag cleared, the flag being merely carried
through; and the response is the standard one: the particle is pushed to
exactly the combined radius distance from the circle center and, when
approaching, keeps its speed scaled by damping.  No relocation and no fresh
random velocity occur. -/
theorem C4_absorb_ignored :
    (∀ (env : Env) (damping r : ℚ) (p v : V2) (s : Shape) (b : Bool),
      handleCircleCollision env damping r p v { s with absorb := b } =
        ((handleCircleCollision env damping r p v s).1,
         (handleCircleCollision env damping r p v s).2.1,
         { (handleCircleCollision env damping r p v s).2.2 with absorb := b })) ∧
    (∀ (env : Env) (damping r : ℚ) (p v : V2) (s : Shape) (d : ℚ),
      (p.x - s.x) * (p.x - s.x) + (p.y - s.y) * (p.y - s.y) <
        (r + s.radius) * (r + s.radius) →
      (0.01 : ℚ) < (p.x - s.x) * (p.x - s.x) + (p.y - s.y) * (p.y - s.y) →
      env.sq ((p.x - s.x) * (p.x - s.x) + (p.y - s.y) * (p.y - s.y)) = d →
      d * d = (p.x - s.x) * (p.x - s.x) + (p.y - s.y) * (p.y - s.y) →
      0 < d →
      ((handleCircleCollision env damping r p v s).1.x - s.x) ^ 2 +
        ((handleCircleCollision env damping r p v s).1.y - s.y) ^ 2 =
        (r + s.radius) ^ 2 ∧
      (v.x * ((p.x - s.x) / d) + v.y * ((p.y - s.y) / d) < 0 →
        (handleCircleCollision env damping r p v s).2.1.x ^ 2 +
        (handleCircleCollision env damping r p v s).2.1.y ^ 2 =
        damping ^ 2 * (v.x ^ 2 + v.y ^ 2))) := by
  constructor
  · intro env damping r p v s b
    cases s
    simp only [handleCircleCollision]
    split_ifs <;> rfl
  · intro env damping r p v s d hlt hgt hsq hd2 hdpos
    have hne : d ≠ 0 := ne_of_gt hdpos
    have hd2' : (p.x - s.x) ^ 2 + (p.y - s.y) ^ 2 = d ^ 2 := by nlinarith [hd2]
    have hunit : ((p.x - s.x) / d) ^ 2 + ((p.y - s.y) / d) ^ 2 = 1 := by
      rw [div_pow, div_pow, ← add_div, hd2']
      exact div_self (pow_ne_zero 2 hne)
    have hux : p.x - s.x = (p.x - s.x) / d * d := (div_mul_cancel₀ _ hne).symm
    have hwy : p.y - s.y = (p.y - s.y) / d * d := (div_mul_cancel₀ _ hne).symm
    constructor
    · simp only [handleCircleCollision, hsq, if_pos (And.intro hlt hgt)]
      split_ifs <;>
      · dsimp only
        linear_combination ((r + s.radius) ^ 2) * hunit +
          ((p.x - s.x) + (p.x - s.x) / d * d +
            2 * ((p.x - s.x) / d) * ((r + s.radius) - d)) * hux +
          ((p.y - s.y) + (p.y - s.y) / d * d +
            2 * ((p.y - s.y) / d) * ((r + s.radius) - d)) * hwy
    · intro hdot
      simp only [handleCircleCollision, hsq, if_pos (And.intro hlt hgt), if_pos hdot]
      linear_combination (4 * damping ^ 2 *
        (v.x * ((p.x - s.x) / d) + v.y * ((p.y - s.y) / d)) ^ 2) * hunit

/-- C4 witness: a particle at (8,0) penetrating the absorbing circle of
radius 10 at the origin is pushed to exactly the combined radius 12 from the
center. -/
theorem C4_witness :
    ((handleCircleCollision (sqEnv fun q => if q = 64 then 8 else 0) 0.98 2
        ⟨8, 0⟩ ⟨-5, 0⟩ c4AbsCircle).1.x - c4AbsCircle.x) ^ 2 +
    ((handleCircleCollision (sqEnv fun q => if q = 64 then 8 else 0) 0.98 2
        ⟨8, 0⟩ ⟨-5, 0⟩ c4AbsCircle).1.y - c4AbsCircle.y) ^ 2 =
    (2 + c4AbsCircle.radius) ^ 2 :=
  (C4_absorb_ignored.2 (sqEnv fun q => if q = 64 then 8 else 0) 0.98 2
    ⟨8, 0⟩ ⟨-5, 0⟩ c4AbsCircle 8 (by norm_num [c4AbsCircle])
    (by norm_num [c4AbsCircle]) (by norm_num [c4AbsCircle, sqEnv])
    (by norm_num [c4AbsCircle]) (by norm_num)).1

/-- C4 counterexample: a particle penetrating a circle flagged absorbing gets
exactly the ordinary deterministic push-out and damped reflection (position
(12,0), velocity (4.9,0)), the circle is untouched, and the outcome is
identical to the one for the same circle without the flag: the absorbing
bypass, momentum transfer, relocation and fresh random velocity described by
the claim do not exist in the code. -/
theorem C4_counterexample :
    (handleCircleCollision (sqEnv fun q => if q = 64 then 8 else 0) 0.98 2
        ⟨8, 0⟩ ⟨-5, 0⟩ c4AbsCircle).1 = ⟨12, 0⟩ ∧
    (handleCircleCollision (sqEnv fun q => if q = 64 then 8 else 0) 0.98 2
        ⟨8, 0⟩ ⟨-5, 0⟩ c4AbsCircle).2.1 = ⟨49/10, 0⟩ ∧
    (handleCircleCollision (sqEnv fun q => if q = 64 then 8 else 0) 0.98 2
        ⟨8, 0⟩ ⟨-5, 0⟩ c4AbsCircle).2.2 = c4AbsCircle ∧
    (handleCircleCollision (sqEnv fun q => if q = 64 then 8 else 0) 0.98 2
        ⟨8, 0⟩ ⟨-5, 0⟩ c4AbsCircle).1 =
      (handleCircleCollision (sqEnv fun q => if q = 64 then 8 else 0) 0.98 2
        ⟨8, 0⟩ ⟨-5, 0⟩ c4PlainCircle).1 ∧
    (handleCircleCollision (sqEnv fun q => if q = 64 then 8 else 0) 0.98 2
        ⟨8, 0⟩ ⟨-5, 0⟩ c4AbsCircle).2.1 =
      (handleCircleCollision (sqEnv fun q => if q = 64 then 8 else 0) 0.98 2
        ⟨8, 0⟩ ⟨-5, 0⟩ c4PlainCircle).2.1 := by
  norm_num [handleCircleCollision, sqEnv, c4AbsCircle, c4PlainCircle]

/-- C5 (amended): the moveable circle response is driven by the dot product of
the PARTICLE velocity alone with the contact normal (never the relative
velocity: the circle velocity fields are not read, only written); when that
dot is negative and the circle is moveable, the particle velocity is fully
reflected about the normal and scaled by damping, while the circle receives
half of the transfer 2*dot*m_particle/(m_particle+m_circle) along the normal
(particle mass 1, circle mass defaulting to 1000 when the field is falsy). -/
theorem C5_moveable_circle_response :
    (∀ (env : Env) (damping r : ℚ) (p v : V2) (s : Shape) (wx wy : ℚ),
      (handleCircleCollision env damping r p v { s with vx := wx, vy := wy }).1 =
        (handleCircleCollision env damping r p v s).1 ∧
      (handleCircleCollision env damping r p v { s with vx := wx, vy := wy }).2.1 =
        (handleCircleCollision env damping r p v s).2.1) ∧
    (∀ (env : Env) (damping r : ℚ) (p v : V2) (s : Shape) (d : ℚ),
      (p.x - s.x) * (p.x - s.x) + (p.y - s.y) * (p.y - s.y) <
        (r + s.radius) * (r + s.radius) →
      (0.01 : ℚ) < (p.x - s.x) * (p.x - s.x) + (p.y - s.y) * (p.y - s.y) →
      env.sq ((p.x - s.x) * (p.x - s.x) + (p.y - s.y) * (p.y - s.y)) = d →
      v.x * ((p.x - s.x) / d) + v.y * ((p.y - s.y) / d) < 0 →
      s.moveable = true →
      (handleCircleCollision env damping r p v s).2.1 =
        ⟨(v.x - 2 * (v.x * ((p.x - s.x) / d) + v.y * ((p.y - s.y) / d)) *
            ((p.x - s.x) / d)) * damping,
         (v.y - 2 * (v.x * ((p.x - s.x) / d) + v.y * ((p.y - s.y) / d)) *
            ((p.y - s.y) / d)) * damping⟩ ∧
      (handleCircleCollision env damping r p v s).2.2 =
        { s with vx := s.vx - (p.x - s.x) / d *
            (2 * (v.x * ((p.x - s.x) / d) + v.y * ((p.y - s.y) / d)) * 1 /
              (1 + if s.mass = 0 then 1000 else s.mass)) * 0.5,
                 vy := s.vy - (p.y - s.y) / d *
            (2 * (v.x * ((p.x - s.x) / d) + v.y * ((p.y - s.y) / d)) * 1 /
              (1 + if s.mass = 0 then 1000 else s.mass)) * 0.5 }) := by
  constructor
  · intro env damping r p v s wx wy
    cases s
    simp only [handleCircleCollision]
    split_ifs <;> exact ⟨rfl, rfl⟩
  · intro env damping r p v s d hlt hgt hsq hdot hmov
    simp only [handleCircleCollision, hsq, if_pos (And.intro hlt hgt),
      if_pos hdot, hmov]
    exact ⟨by trivial, by trivial⟩

/-- C5 witness: concrete approaching particle against the concrete moveable
circle, at damping 1: the particle velocity is exactly reversed along the
normal. -/
theorem C5_witness :
    (handleCircleCollision (sqEnv fun q => if q = 64 then 8 else 0) 1 2
        ⟨8, 0⟩ ⟨-5, 0⟩ c5Circle).2.1 = ⟨5, 0⟩ := by
  have h := ((C5_moveable_circle_response).2 (sqEnv fun q => if q = 64 then 8 else 0)
    1 2 ⟨8, 0⟩ ⟨-5, 0⟩ c5Circle 8 (by norm_num [c5Circle]) (by norm_num [c5Circle])
    (by norm_num [c5Circle, sqEnv]) (by norm_num [c5Circle]) (by norm_num [c5Circle])).1
  rw [h]
  norm_num [c5Circle]

/-- C5 counterexample: a resting particle penetrated by a circle moving
toward it at speed 5 has relative velocity (particle minus circle) dotted with
the normal equal to -5 < 0, so the claimed mass weighted impulse should fire;
the code instead dots only the particle velocity (zero), applies no impulse at
all, and leaves both the particle velocity and the circle velocity unchanged
(only the push-out of the position happens). -/
theorem C5_counterexample :
    (handleCircleCollision (sqEnv fun q => if q = 64 then 8 else 0) 0.98 2
        ⟨8, 0⟩ ⟨0, 0⟩ c5Circle).2.1 = ⟨0, 0⟩ ∧
    (handleCircleCollision (sqEnv fun q => if q = 64 then 8 else 0) 0.98 2
        ⟨8, 0⟩ ⟨0, 0⟩ c5Circle).2.2 = c5Circle ∧
    (handleCircleCollision (sqEnv fun q => if q = 64 then 8 else 0) 0.98 2
        ⟨8, 0⟩ ⟨0, 0⟩ c5Circle).1 = ⟨12, 0⟩ ∧
    ((0 : ℚ) - c5Circle.vx) * 1 + ((0 : ℚ) - c5Circle.vy) * 0 < 0 := by
  norm_num [handleCircleCollision, sqEnv, c5Circle]

theorem placeLoop_length_le (shapes : List Shape) (cand vel : ℕ → V2)
    (count : ℕ) :
    ∀ (budget attempts : ℕ) (acc : List (V2 × V2)), acc.length ≤ count →
      (placeLoop shapes cand vel count budget attempts acc).length ≤ count := by
  intro budget
  induction budget with
  | zero => intro attempts acc h; simpa [placeLoop] using h
  | succ n ih =>
    intro attempts acc h
    rw [placeLoop]
    split_ifs with hlen hocc
    · exact ih (attempts + 1) acc h
    · refine ih (attempts + 1) _ ?_
      simpa using hlen
    · exact h

theorem placeLoop_not_occupied (shapes : List Shape) (cand vel : ℕ → V2)
    (count : ℕ) :
    ∀ (budget attempts : ℕ) (acc : List (V2 × V2)),
      (∀ pv ∈ acc, isPositionOccupied shapes pv.1.x pv.1.y = false) →
      ∀ pv ∈ placeLoop shapes cand vel count budget attempts acc,
        isPositionOccupied shapes pv.1.x pv.1.y = false := by
  intro budget
  induction budget with
  | zero => intro attempts acc h; simpa [placeLoop] using h
  | succ n ih =>
    intro attempts acc h
    rw [placeLoop]
    split_ifs with hlen hocc
    · exact ih (attempts + 1) acc h
    · refine ih (attempts + 1) _ ?_
      intro pv hpv
      rcases List.mem_append.1 hpv with hm | hm
      · exact h pv hm
      · rcases List.mem_singleton.1 hm with rfl
        simpa using Bool.not_eq_true _ ▸ (by simpa using hocc)
    · exact h

theorem placeLoop_congr (shapes : List Shape) (cand cand' vel vel' : ℕ → V2)
    (count : ℕ) :
    ∀ (budget attempts : ℕ) (acc : List (V2 × V2)),
      (∀ a, attempts ≤ a → a < attempts + budget → cand a = cand' a ∧ vel a = vel' a) →
      placeLoop shapes cand vel count budget attempts acc =
        placeLoop shapes cand' vel' count budget attempts acc := by
  intro budget
  induction budget with
  | zero => intro attempts acc _; rfl
  | succ n ih =>
    intro attempts acc h
    have hc : cand attempts = cand' attempts ∧ vel attempts = vel' attempts :=
      h attempts le_rfl (by omega)
    rw [placeLoop, placeLoop, ← hc.1, ← hc.2]
    split_ifs with hlen hocc
    · exact ih (attempts + 1) acc (fun a h1 h2 => h a (by omega) (by omega))
    · exact ih (attempts + 1) _ (fun a h1 h2 => h a (by omega) (by omega))
    · rfl

theorem runPlacement_spec (shapes : List Shape) (cand vel : ℕ → V2) (count : ℕ) :
    (runPlacement shapes cand vel count).1 ≤ count ∧
    (runPlacement shapes cand vel count).2.1.length = count ∧
    (runPlacement shapes cand vel count).2.2.length = count ∧
    ∀ p ∈ (runPlacement shapes cand vel count).2.1.take
        (runPlacement shapes cand vel count).1,
      isPositionOccupied shapes p.x p.y = false := by
  have hle : (placeLoop shapes cand vel count (count * 100) 0 []).length ≤ count :=
    placeLoop_length_le shapes cand vel count (count * 100) 0 [] (by simp)
  have hnc : (if (placeLoop shapes cand vel count (count * 100) 0 []).length < count
      then (placeLoop shapes cand vel count (count * 100) 0 []).length else count) =
      (placeLoop shapes cand vel count (count * 100) 0 []).length := by
    split_ifs with h
    · rfl
    · omega
  refine ⟨?_, ?_, ?_, ?_⟩
  · simp only [runPlacement, hnc]
    exact hle
  · simp only [runPlacement]
    simp [hle]
  · simp only [runPlacement]
    simp [hle]
  · simp only [runPlacement, hnc]
    intro p hp
    have htake : ((placeLoop shapes cand vel count (count * 100) 0 []).map Prod.fst ++
        List.replicate (count - (placeLoop shapes cand vel count (count * 100) 0 []).length)
          (⟨0, 0⟩ : V2)).take (placeLoop shapes cand vel count (count * 100) 0 []).length =
        (placeLoop shapes cand vel count (count * 100) 0 []).map Prod.fst := by
      rw [show (placeLoop shapes cand vel count (count * 100) 0 []).length =
        ((placeLoop shapes cand vel count (count * 100) 0 []).map Prod.fst).length by simp]
      exact List.take_left _ _
    rw [htake] at hp
    rcases List.mem_map.1 hp with ⟨pv, hpv, rfl⟩
    exact placeLoop_not_occupied shapes cand vel count (count * 100) 0 []
      (by intro pv h; simp at h) pv hpv
/-- C2: each placement policy (center, left, random) terminates with at most
100 * particleCount candidate attempts (the result is unchanged under any
modification of the random streams beyond the first 100 * count attempts),
leaves the effective particle count at most the requested count while the
arrays keep the requested allocated length, and every placed particle (the
first newCount entries) fails the occupancy test of every registered shape;
the shortfall only shrinks the returned count, no error state exists. -/
theorem C2_rejection_sampling :
    (∀ (env : Env) (shapes : List Shape) (boundsW boundsH : ℚ) (count : ℕ),
      (initCenter env shapes boundsW boundsH count).1 ≤ count ∧
      (initCenter env shapes boundsW boundsH count).2.1.length = count ∧
      (initCenter env shapes boundsW boundsH count).2.2.length = count ∧
      ∀ p ∈ (initCenter env shapes boundsW boundsH count).2.1.take
          (initCenter env shapes boundsW boundsH count).1,
        isPositionOccupied shapes p.x p.y = false) ∧
    (∀ (env : Env) (shapes : List Shape) (boundsH : ℚ) (count : ℕ),
      (initLeft env shapes boundsH count).1 ≤ count ∧
      (initLeft env shapes boundsH count).2.1.length = count ∧
      (initLeft env shapes boundsH count).2.2.length = count ∧
      ∀ p ∈ (initLeft env shapes boundsH count).2.1.take
          (initLeft env shapes boundsH count).1,
        isPositionOccupied shapes p.x p.y = false) ∧
    (∀ (env : Env) (shapes : List Shape) (boundsW boundsH : ℚ) (count : ℕ),
      (initRandom env shapes boundsW boundsH count).1 ≤ count ∧
      (initRandom env shapes boundsW boundsH count).2.1.length = count ∧
      (initRandom env shapes boundsW boundsH count).2.2.length = count ∧
      ∀ p ∈ (initRandom env shapes boundsW boundsH count).2.1.take
          (initRandom env shapes boundsW boundsH count).1,
        isPositionOccupied shapes p.x p.y = false) ∧
    (∀ (shapes : List Shape) (cand cand' vel vel' : ℕ → V2) (count : ℕ),
      (∀ a, a < count * 100 → cand a = cand' a ∧ vel a = vel' a) →
      placeLoop shapes cand vel count (count * 100) 0 [] =
        placeLoop shapes cand' vel' count (count * 100) 0 []) := by
  refine ⟨?_, ?_, ?_, ?_⟩
  · intro env shapes boundsW boundsH count
    exact runPlacement_spec shapes _ _ count
  · intro env shapes boundsH count
    exact runPlacement_spec shapes _ _ count
  · intro env shapes boundsW boundsH count
    exact runPlacement_spec shapes _ _ count
  · intro shapes cand cand' vel vel' count h
    exact placeLoop_congr shapes cand cand' vel vel' count (count * 100) 0 []
      (fun a h1 h2 => h a (by omega))

/-- C2 witness: the random policy at a concrete state (one shape occupying
nothing relevant, one particle requested) places at most one particle, keeps
array length 1, and the placed particle is unoccupied. -/
theorem C2_witness :
    (initRandom (sqEnv fun _ => 0) [] 20 20 1).1 ≤ 1 ∧
    (∀ p ∈ (initRandom (sqEnv fun _ => 0) [] 20 20 1).2.1.take
        (initRandom (sqEnv fun _ => 0) [] 20 20 1).1,
      isPositionOccupied [] p.x p.y = false) :=
  ⟨(C2_rejection_sampling.2.2.1 (sqEnv fun _ => 0) [] 20 20 1).1,
   (C2_rejection_sampling.2.2.1 (sqEnv fun _ => 0) [] 20 20 1).2.2.2⟩
theorem C10_sensor_hit (sen : Sensor) (res : ℚ) (hits : List ℚ) (x1 y1 x2 y2 : ℚ) :
    (¬ (sen.x ≤ (x2 + x1) / 2 ∧ (x2 + x1) / 2 < sen.x + sen.width ∧
        sen.y ≤ (y2 + y1) / 2 ∧ (y2 + y1) / 2 < sen.y + sen.height) →
      checkSensorHit sen res hits x1 y1 x2 y2 = hits) ∧
    (checkSensorHit sen res hits x1 y1 x2 y2 = hits ∨
      ∃ i, i < hits.length ∧
        checkSensorHit sen res hits x1 y1 x2 y2 =
          hits.set i (min (hits.getD i 0 + 1) 20)) ∧
    ((∀ c ∈ hits, 0 ≤ c ∧ c ≤ 20) →
      (∀ c ∈ checkSensorHit sen res hits x1 y1 x2 y2, 0 ≤ c ∧ c ≤ 20) ∧
      (∀ c ∈ decaySensor hits, 0 ≤ c ∧ c ≤ 20)) := by
  have hb : checkSensorHit sen res hits x1 y1 x2 y2 = hits ∨
      ∃ i, i < hits.length ∧
        checkSensorHit sen res hits x1 y1 x2 y2 =
          hits.set i (min (hits.getD i 0 + 1) 20) := by
    simp only [checkSensorHit]
    split_ifs with h1 h2 h3
    · right
      refine ⟨(⌊((y2 + y1) / 2 - sen.y) / res⌋ * ⌈sen.width / res⌉ +
          ⌊((x2 + x1) / 2 - sen.x) / res⌋).toNat, ?_, rfl⟩
      have h4 := h3.1
      have h5 := h3.2
      omega
    · exact Or.inl rfl
    · exact Or.inl rfl
    · exact Or.inl rfl
  refine ⟨?_, hb, ?_⟩
  · intro hmid
    simp only [checkSensorHit]
    split_ifs <;> rfl
  · intro hall
    constructor
    · rcases hb with he | ⟨i, hi, he⟩
      · rw [he]; exact hall
      · rw [he]
        intro c hc
        rcases List.mem_or_eq_of_mem_set hc with hm | rfl
        · exact hall c hm
        · have hmem : hits.getD i 0 ∈ hits := by
            rw [List.getD_eq_getElem hits 0 hi]
            exact List.getElem_mem hi
          have h0 := hall _ hmem
          constructor
          · exact le_min (by linarith [h0.1]) (by norm_num)
          · exact min_le_right _ _
    · intro c hc
      rcases List.mem_map.1 hc with ⟨c0, hc0, rfl⟩
      have h0 := hall c0 hc0
      constructor
      · nlinarith [h0.1]
      · nlinarith [h0.2]
/-- C10 witness: a segment crossing the 10x10 sensor at origin with midpoint
(1,5) inside, on an all zero 2 cell grid, keeps every cell inside [0, 20]. -/
theorem C10_witness :
    ∀ c ∈ checkSensorHit ⟨0, 0, 10, 10⟩ 1 [0, 0] (-1) 5 3 5, 0 ≤ c ∧ c ≤ 20 :=
  ((C10_sensor_hit ⟨0, 0, 10, 10⟩ 1 [0, 0] (-1) 5 3 5).2.2
    (by intro c hc; simp at hc; simp [hc])).1

/-- C9 (amended): disabling the force field visualization only clears the
flag and leaves the grid exactly as it was (no deallocation); enabling
allocates the zero grid lazily, only when none is present, and keeps an
existing grid otherwise. -/
theorem C9_force_field_lifecycle :
    (∀ st : SimState, (setShowForceField st false).forceField = st.forceField ∧
      (setShowForceField st false).showForceField = false) ∧
    (∀ st : SimState, st.forceField = none →
      (setShowForceField st true).forceField =
        some (List.replicate ((⌈st.boundsW / st.forceFieldResolution⌉).toNat *
          (⌈st.boundsH / st.forceFieldResolution⌉).toNat) 0)) ∧
    (∀ (st : SimState) (g : List ℚ), st.forceField = some g →
      (setShowForceField st true).forceField = some g) := by
  refine ⟨?_, ?_, ?_⟩
  · intro st
    constructor <;> simp [setShowForceField]
  · intro st hf
    simp [setShowForceField, initForceField, hf]
  · intro st g hf
    simp [setShowForceField, initForceField, hf]

/-- C9 witness: enabling on the concrete state allocates the 2x2 zero grid;
disabling keeps whatever grid is present. -/
theorem C9_witness :
    (setShowForceField baseState true).forceField =
      some (List.replicate ((⌈(40 : ℚ) / 20⌉).toNat * (⌈(40 : ℚ) / 20⌉).toNat) 0) :=
  C9_force_field_lifecycle.2.1 baseState rfl

/-- C9 counterexample: enable then disable on the concrete state: the grid is
still allocated (a present all zero grid), not absent — the claimed
deallocation on disable does not exist in the code. -/
theorem C9_counterexample :
    (setShowForceField (setShowForceField baseState true) false).forceField =
      some (List.replicate 4 0) ∧
    (setShowForceField (setShowForceField baseState true) false).showForceField
      = false ∧
    some (List.replicate 4 (0 : ℚ)) ≠ (none : Option (List ℚ)) := by
  refine ⟨?_, ?_, by simp⟩
  · norm_num [setShowForceField, initForceField, baseState]
    rfl
  · norm_num [setShowForceField, initForceField, baseState]
theorem initSensor_positions (s : SimState) :
    (initSensor s).positions = s.positions := by
  cases hs : s.sensor <;> simp [initSensor, hs]

theorem initSensor_velocities (s : SimState) :
    (initSensor s).velocities = s.velocities := by
  cases hs : s.sensor <;> simp [initSensor, hs]

theorem initSensor_particleCount (s : SimState) :
    (initSensor s).particleCount = s.particleCount := by
  cases hs : s.sensor <;> simp [initSensor, hs]

theorem initCirclePhysics_positions (env : Env) (s : SimState) :
    (initCirclePhysics env s).positions = s.positions := by
  simp [initCirclePhysics]

theorem initCirclePhysics_velocities (env : Env) (s : SimState) :
    (initCirclePhysics env s).velocities = s.velocities := by
  simp [initCirclePhysics]

theorem initCirclePhysics_particleCount (env : Env) (s : SimState) :
    (initCirclePhysics env s).particleCount = s.particleCount := by
  simp [initCirclePhysics]

theorem initForceField_positions (s : SimState) :
    (initForceField s).positions = s.positions := by
  simp only [initForceField]
  split_ifs <;> simp

theorem initForceField_velocities (s : SimState) :
    (initForceField s).velocities = s.velocities := by
  simp only [initForceField]
  split_ifs <;> simp

theorem initForceField_particleCount (s : SimState) :
    (initForceField s).particleCount = s.particleCount := by
  simp only [initForceField]
  split_ifs <;> simp

/-- C8 (amended): the placement mode string static matches no branch of init:
with no emitter attached, configuring with mode static allocates the arrays
and leaves them zero filled — every particle sits at the origin (0,0) with
zero velocity, regardless of the random oracle; the particle count is kept.
The uniform-over-the-domain placement of the claim does not happen. -/
theorem C8_static_mode (env : Env) (st : SimState) (he : st.emitter = none) :
    (init env st "static").positions = List.replicate st.particleCount ⟨0, 0⟩ ∧
    (init env st "static").velocities = List.replicate st.particleCount ⟨0, 0⟩ ∧
    (init env st "static").particleCount = st.particleCount := by
  refine ⟨?_, ?_, ?_⟩ <;>
  · simp +decide [init, he, initForceField_positions, initForceField_velocities,
      initForceField_particleCount, initCirclePhysics_positions,
      initCirclePhysics_velocities, initCirclePhysics_particleCount,
      initSensor_positions, initSensor_velocities, initSensor_particleCount,
      apply_ite SimState.positions, apply_ite SimState.velocities,
      apply_ite SimState.particleCount]

theorem C8_witness :
    (init (sqEnv fun _ => 0) baseState "static").positions =
      List.replicate 1 ⟨0, 0⟩ :=
  (C8_static_mode (sqEnv fun _ => 0) baseState rfl).1

theorem C8_counterexample :
    (init c8Env baseState "static").positions = [⟨0, 0⟩] ∧
    (initStatic_spec c8Env [] 40 40 1).2.1 = [⟨20, 20⟩] ∧
    ([⟨0, 0⟩] : List V2) ≠ [⟨20, 20⟩] := by
  refine ⟨?_, ?_, ?_⟩
  · simp +decide [init, baseState, initSensor, initCirclePhysics, initForceField]
  · simp only [initStatic_spec, runPlacement]
    rw [show (1 * 100 : ℕ) = 98 + 1 + 1 from rfl]
    simp [placeLoop, isPositionOccupied, c8Env]
    norm_num [V2.mk.injEq]
  · simp [V2.mk.injEq]

theorem countEmit_spec (i : ℚ) (hi : 0 < i) :
    ∀ (fuel : ℕ) (acc : ℚ), 0 ≤ acc → (⌊acc / i⌋).toNat < fuel →
      countEmit fuel acc i = ((⌊acc / i⌋).toNat, acc - (⌊acc / i⌋ : ℚ) * i) := by
  intro fuel
  induction fuel with
  | zero => intro acc h1 h2; omega
  | succ n ih =>
    intro acc h1 h2
    rw [countEmit]
    split_ifs with hle
    · have hone : (1 : ℚ) ≤ acc / i := (le_div_iff₀ hi).2 (by linarith)
      have hfl1 : 1 ≤ ⌊acc / i⌋ := by
        have := Int.le_floor.2 (by exact_mod_cast hone)
        simpa using this
      have hsub : (acc - i) / i = acc / i - 1 := by
        field_simp
      have hflsub : ⌊(acc - i) / i⌋ = ⌊acc / i⌋ - 1 := by
        rw [hsub, show (1 : ℚ) = ((1 : ℤ) : ℚ) by norm_num, Int.floor_sub_int]
      have hrec := ih (acc - i) (by linarith) (by omega)
      rw [hrec]
      dsimp only
      rw [hflsub]
      simp only [Prod.mk.injEq]
      constructor
      · omega
      · push_cast [Int.toNat_of_nonneg (by omega : (0 : ℤ) ≤ ⌊acc / i⌋ - 1)]
        ring
    · push_neg at hle
      have hfl0 : ⌊acc / i⌋ = 0 := by
        rw [Int.floor_eq_zero_iff]
        constructor
        · positivity
        · rw [div_lt_one hi]
          exact hle
      simp [hfl0]

theorem emitLoop_lengths (env : Env) (em : Emitter) (pc : ℕ) :
    ∀ (k n active : ℕ) (ps vs : List V2),
      ((emitLoop env em pc k n active ps vs).2.2.1).length = ps.length ∧
      ((emitLoop env em pc k n active ps vs).2.2.2).length = vs.length := by
  intro k
  induction k with
  | zero => intro n active ps vs; simp [emitLoop]
  | succ m ih =>
    intro n active ps vs
    rw [emitLoop]
    split_ifs with h1 h2
    · have := ih (n + 1) active (emitParticle env em n 0 ps vs).1
        (emitParticle env em n 0 ps vs).2
      simpa [emitParticle] using this
    · have := ih (n + 1) (active + 1) (emitParticle env em n active ps vs).1
        (emitParticle env em n active ps vs).2
      simpa [emitParticle] using this
    · exact ih n active ps vs

theorem emitLoop_active (env : Env) (em : Emitter) (hm : em.maxParticles ≠ 0) :
    ∀ (k n active : ℕ) (ps vs : List V2), active ≤ em.maxParticles →
      (emitLoop env em em.maxParticles k n active ps vs).2.1 =
        min em.maxParticles (active + k) := by
  intro k
  induction k with
  | zero => intro n active ps vs h; simp [emitLoop]; omega
  | succ m ih =>
    intro n active ps vs h
    rw [emitLoop]
    split_ifs with h1 h2
    · rw [ih (n + 1) active _ _ h]
      omega
    · rw [ih (n + 1) (active + 1) _ _ (by omega)]
      omega
    · omega
theorem c7_step (env : Env) (s : SimState) (dt : ℚ) (hd : 0 ≤ dt)
    (he : s.emitter = some c7Emitter) (hpc : s.particleCount = 5)
    (hlen : s.positions.length = 5) (hlenv : s.velocities.length = 5)
    (k : ℕ) (hact : s.activeParticles = min 5 k)
    (hacc0 : 0 ≤ s.emitterAccumulator)
    (hacc1 : s.emitterAccumulator < 1 / 10) :
    ∃ m : ℕ,
      (updateEmitter env s dt).activeParticles = min 5 (k + m) ∧
      (updateEmitter env s dt).emitterAccumulator =
        s.emitterAccumulator + dt - m * (1 / 10) ∧
      0 ≤ (updateEmitter env s dt).emitterAccumulator ∧
      (updateEmitter env s dt).emitterAccumulator < 1 / 10 ∧
      (updateEmitter env s dt).emitter = some c7Emitter ∧
      (updateEmitter env s dt).particleCount = 5 ∧
      (updateEmitter env s dt).positions.length = 5 ∧
      (updateEmitter env s dt).velocities.length = 5 := by
  have hppsne : c7Emitter.particlesPerSecond = (10 : ℚ) := rfl
  have hmax5 : c7Emitter.maxParticles = 5 := rfl
  have hi : (0 : ℚ) < 1 / c7Emitter.particlesPerSecond := by
    rw [hppsne]; norm_num
  have haccnn : 0 ≤ s.emitterAccumulator + dt := by positivity
  have hfl0 : (0 : ℤ) ≤
      ⌊(s.emitterAccumulator + dt) / (1 / c7Emitter.particlesPerSecond)⌋ :=
    Int.floor_nonneg.2 (by positivity)
  have h10 : (s.emitterAccumulator + dt) / (1 / c7Emitter.particlesPerSecond) =
      10 * (s.emitterAccumulator + dt) := by
    rw [hppsne]; norm_num; ring
  have hfl_le : (⌊(s.emitterAccumulator + dt) /
        (1 / c7Emitter.particlesPerSecond)⌋ : ℚ) ≤
      10 * (s.emitterAccumulator + dt) := by
    rw [← h10]; exact Int.floor_le _
  have hfl_gt : 10 * (s.emitterAccumulator + dt) <
      (⌊(s.emitterAccumulator + dt) /
        (1 / c7Emitter.particlesPerSecond)⌋ : ℚ) + 1 := by
    rw [← h10]; exact Int.lt_floor_add_one _
  have hmq : (((⌊(s.emitterAccumulator + dt) /
        (1 / c7Emitter.particlesPerSecond)⌋).toNat : ℤ) : ℚ) =
      ((⌊(s.emitterAccumulator + dt) /
        (1 / c7Emitter.particlesPerSecond)⌋ : ℤ) : ℚ) := by
    exact_mod_cast congrArg (fun z : ℤ => (z : ℚ)) (Int.toNat_of_nonneg hfl0)
  refine ⟨(⌊(s.emitterAccumulator + dt) /
      (1 / c7Emitter.particlesPerSecond)⌋).toNat, ?_⟩
  simp only [updateEmitter, he]
  rw [if_neg (by rw [hppsne]; norm_num)]
  rw [countEmit_spec _ hi _ _ haccnn (by omega)]
  dsimp only
  simp only [hppsne] at hfl0 hfl_le hfl_gt ⊢
  have hmq2 : ((⌊(s.emitterAccumulator + dt) / (1 / 10)⌋.toNat : ℚ)) =
      ((⌊(s.emitterAccumulator + dt) / (1 / 10 : ℚ)⌋ : ℚ)) := by
    exact_mod_cast Int.toNat_of_nonneg hfl0
  refine ⟨?_, ?_, ?_, ?_, by trivial, by first | trivial | exact hpc, ?_, ?_⟩
  · rw [hpc]
    have hEL := emitLoop_active env c7Emitter (by rw [hmax5]; omega)
      (⌊(s.emitterAccumulator + dt) / (1 / 10)⌋).toNat
      s.emissionCount s.activeParticles s.positions s.velocities
      (by rw [hact, hmax5]; omega)
    rw [hmax5] at hEL
    rw [hEL, hact]
    omega
  · rw [hmq2]
  · linarith
  · linarith
  all_goals first
    | rw [(emitLoop_lengths env c7Emitter s.particleCount _ _ _ _ _).1, hlen]
    | rw [(emitLoop_lengths env c7Emitter s.particleCount _ _ _ _ _).2, hlenv]
theorem c7_fold (env : Env) :
    ∀ (dts : List ℚ) (s : SimState) (k : ℕ),
      (∀ d ∈ dts, 0 ≤ d) →
      s.emitter = some c7Emitter → s.particleCount = 5 →
      s.positions.length = 5 → s.velocities.length = 5 →
      s.activeParticles = min 5 k →
      0 ≤ s.emitterAccumulator → s.emitterAccumulator < 1 / 10 →
      ∃ m : ℕ,
        (List.foldl (updateEmitter env) s dts).activeParticles = min 5 (k + m) ∧
        (List.foldl (updateEmitter env) s dts).emitterAccumulator =
          s.emitterAccumulator + dts.sum - m * (1 / 10) ∧
        0 ≤ (List.foldl (updateEmitter env) s dts).emitterAccumulator ∧
        (List.foldl (updateEmitter env) s dts).emitterAccumulator < 1 / 10 ∧
        (List.foldl (updateEmitter env) s dts).positions.length = 5 := by
  intro dts
  induction dts with
  | nil =>
    intro s k hnn he hpc hlen hlenv hact hacc0 hacc1
    exact ⟨0, by simpa using hact, by simp, by simpa using hacc0,
      by simpa using hacc1, by simpa using hlen⟩
  | cons d ds ih =>
    intro s k hnn he hpc hlen hlenv hact hacc0 hacc1
    have hd : 0 ≤ d := hnn d (List.mem_cons_self d ds)
    obtain ⟨m1, h1, h2, h3, h4, h5, h6, h7, h8⟩ :=
      c7_step env s d hd he hpc hlen hlenv k hact hacc0 hacc1
    obtain ⟨m2, g1, g2, g3, g4, g5⟩ :=
      ih (updateEmitter env s d) (k + m1)
        (fun x hx => hnn x (List.mem_cons_of_mem d hx)) h5 h6 h7 h8 h1 h3 h4
    refine ⟨m1 + m2, ?_, ?_, ?_, ?_, ?_⟩
    · simpa [Nat.add_assoc] using g1
    · simp only [List.foldl_cons] at g2 ⊢
      rw [g2, h2]
      push_cast
      simp [List.sum_cons]
      ring
    · simpa using g3
    · simpa using g4
    · simpa using g5

theorem updateEmitter_emitter (env : Env) (s : SimState) (dt : ℚ) :
    (updateEmitter env s dt).emitter = s.emitter := by
  cases he : s.emitter with
  | none => simp [updateEmitter, he]
  | some em =>
    simp only [updateEmitter, he]
    split_ifs <;> first | exact he | rfl

theorem emitLoop_active_le (env : Env) (em : Emitter) (pc : ℕ)
    (hm : em.maxParticles ≠ 0) :
    ∀ (k n active : ℕ) (ps vs : List V2), active ≤ em.maxParticles →
      (emitLoop env em pc k n active ps vs).2.1 ≤ em.maxParticles := by
  intro k
  induction k with
  | zero => intro n active ps vs h; simpa [emitLoop] using h
  | succ m ih =>
    intro n active ps vs h
    rw [emitLoop]
    split_ifs with h1 h2
    · exact ih (n + 1) active _ _ h
    · refine ih (n + 1) (active + 1) _ _ ?_
      omega
    · exact ih n active ps vs h

theorem updateEmitter_active_le (env : Env) (em : Emitter) (s : SimState)
    (dt : ℚ) (he : s.emitter = some em) (hm : em.maxParticles ≠ 0)
    (h : s.activeParticles ≤ em.maxParticles) :
    (updateEmitter env s dt).activeParticles ≤ em.maxParticles := by
  simp only [updateEmitter, he]
  split_ifs with hp
  · exact h
  · exact emitLoop_active_le env em s.particleCount hm _ _ _ _ _ h

/-- C7: the number of ever activated pool slots never exceeds the configured
maxParticles for any sequence of emitter updates after attaching the emitter;
and in the scenario with maxParticles 5 and 10 particles per second, any
sequence of nonnegative scaled steps accumulating exactly 0.5 seconds
activates exactly 5 particles, the pool holding exactly 5 slots (so no slot
beyond index 4 exists, and emission overwrites slot 0 once full). -/
theorem C7_emitter_pool_bound :
    (∀ (env : Env) (em : Emitter) (st0 : SimState) (dts : List ℚ),
      em.maxParticles ≠ 0 →
      (List.foldl (updateEmitter env) (setEmitter st0 (some em)) dts).activeParticles
        ≤ em.maxParticles) ∧
    (∀ (env : Env) (st0 : SimState) (dts : List ℚ),
      (∀ d ∈ dts, 0 ≤ d) → dts.sum = 1 / 2 →
      (List.foldl (updateEmitter env) (setEmitter st0 (some c7Emitter)) dts).activeParticles
        = 5 ∧
      (List.foldl (updateEmitter env) (setEmitter st0 (some c7Emitter)) dts).positions.length
        = 5) := by
  constructor
  · intro env em st0 dts hm
    have hb1 : (setEmitter st0 (some em)).emitter = some em := by
      simp only [setEmitter]
      split_ifs <;> rfl
    have hb2 : (setEmitter st0 (some em)).activeParticles ≤ em.maxParticles := by
      simp only [setEmitter]
      split_ifs
      simp
    have : ∀ (l : List ℚ) (s : SimState), s.emitter = some em →
        s.activeParticles ≤ em.maxParticles →
        (List.foldl (updateEmitter env) s l).activeParticles ≤ em.maxParticles := by
      intro l
      induction l with
      | nil => intro s h1 h2; simpa using h2
      | cons d ds ihl =>
        intro s h1 h2
        simp only [List.foldl_cons]
        exact ihl (updateEmitter env s d)
          ((updateEmitter_emitter env s d).trans h1)
          (updateEmitter_active_le env em s d h1 hm h2)
    exact this dts _ hb1 hb2
  · intro env st0 dts hnn hsum
    have a1 : (setEmitter st0 (some c7Emitter)).emitter = some c7Emitter := by
      simp [setEmitter, c7Emitter]
    have a2 : (setEmitter st0 (some c7Emitter)).particleCount = 5 := by
      simp [setEmitter, c7Emitter]
    have a3 : (setEmitter st0 (some c7Emitter)).positions.length = 5 := by
      simp [setEmitter, c7Emitter]
    have a4 : (setEmitter st0 (some c7Emitter)).velocities.length = 5 := by
      simp [setEmitter, c7Emitter]
    have a5 : (setEmitter st0 (some c7Emitter)).activeParticles = min 5 0 := by
      simp [setEmitter, c7Emitter]
    have a6 : 0 ≤ (setEmitter st0 (some c7Emitter)).emitterAccumulator := by
      simp [setEmitter, c7Emitter]
    have a7 : (setEmitter st0 (some c7Emitter)).emitterAccumulator < 1 / 10 := by
      norm_num [setEmitter, c7Emitter]
    have hex := c7_fold env dts (setEmitter st0 (some c7Emitter)) 0 hnn a1 a2 a3 a4 a5 a6 a7
    obtain ⟨m, g1, g2, g3, g4, g5⟩ := hex
    have hacc : (setEmitter st0 (some c7Emitter)).emitterAccumulator = 0 := by
      simp [setEmitter, c7Emitter]
    rw [hacc, hsum] at g2
    have hm5 : m = 5 := by
      have hq1 : (m : ℚ) * (1 / 10) ≤ 1 / 2 := by linarith
      have hq2 : (1 : ℚ) / 2 < (m + 1) * (1 / 10) := by linarith
      have hle : (m : ℚ) ≤ 5 := by linarith
      have hgt : (4 : ℚ) < (m : ℚ) := by linarith
      have hq3 : (4 : ℕ) < m := by exact_mod_cast hgt
      have hq4 : m ≤ 5 := by exact_mod_cast hle
      omega
    subst hm5
    exact ⟨by simpa using g1, g5⟩

/-- C7 witness: a single step of 0.5 seconds activates exactly 5 slots. -/
theorem C7_witness :
    (List.foldl (updateEmitter (sqEnv fun _ => 0))
      (setEmitter baseState (some c7Emitter)) [1 / 2]).activeParticles = 5 :=
  (C7_emitter_pool_bound.2 (sqEnv fun _ => 0) baseState [1 / 2]
    (by intro d hd; simp at hd; simp [hd]) (by simp)).1
theorem lookupCell_singleton (key nk : ℤ × ℤ) (l : List ℕ) (h : ¬ (key = nk)) :
    lookupCell [(key, l)] nk = [] := by
  simp [lookupCell, List.find?, h]

theorem collisionPairs_singleton (key : ℤ × ℤ) :
    collisionPairs [(key, [0])] = [] := by
  obtain ⟨a, b⟩ := key
  have h1 : lookupCell [((a, b), [0])] (a + 1, b) = [] :=
    lookupCell_singleton _ _ _ (by simp)
  have h2 : lookupCell [((a, b), [0])] (a, b + 1) = [] :=
    lookupCell_singleton _ _ _ (by simp)
  have h3 : lookupCell [((a, b), [0])] (a + 1, b + 1) = [] :=
    lookupCell_singleton _ _ _ (by simp)
  have h4 : lookupCell [((a, b), [0])] (a - 1, b + 1) = [] :=
    lookupCell_singleton _ _ _ (by simp)
  simp [collisionPairs, pairsForCell, neighborKeys, h1, h2, h3, h4]

theorem detect_singleton (env : Env) (damping r cs : ℚ) (p : V2) (vs : List V2) :
    detectCollisionsOptimized env damping r cs [p] vs = ([p], vs) := by
  simp only [detectCollisionsOptimized]
  rw [show buildSpatialHash cs [p] = [((⌊p.x / cs⌋, ⌊p.y / cs⌋), [0])] from rfl]
  rw [collisionPairs_singleton]
  rfl
/-- C1 (amended): in reflect mode the boundary clamp itself puts the particle
inside [radius, bound - radius] on both axes; shape collision response and
particle pair separation run after the clamp and may push a particle back out,
so the invariant as claimed holds for a single particle with no registered
shapes (as the counterexample forces): after any update the position lies
within [radius, bound - radius] on both axes, for any starting position,
velocity and dt. -/
theorem C1_reflect_bounds (env : Env) (st : SimState) (dt : ℚ) (p v : V2)
    (hw : st.wrapEdges = false) (hs : st.shapes = []) (he : st.emitter = none)
    (hf : st.showForceField = false) (hsen : st.sensor = none)
    (hsh : st.sensorHits = none) (hpc : st.particleCount = 1)
    (hp : st.positions = [p]) (hv : st.velocities = [v])
    (hb1 : st.particleRadius ≤ st.boundsW - st.particleRadius)
    (hb2 : st.particleRadius ≤ st.boundsH - st.particleRadius) :
    ∃ q : V2, (update env st dt).positions = [q] ∧
      st.particleRadius ≤ q.x ∧ q.x ≤ st.boundsW - st.particleRadius ∧
      st.particleRadius ≤ q.y ∧ q.y ≤ st.boundsH - st.particleRadius := by
  obtain ⟨pc, ps, vs, sm, damping, r, W, H, cs, shapes, time, sensor, hits,
    sres, sff, ffr, ff, ffw, ffh, em, acc, act, wrap, ec⟩ := st
  simp only at hw hs he hf hsen hsh hpc hp hv hb1 hb2
  subst hw hs he hf hsen hsh hpc hp hv
  simp [update, updateShapes, checkShapeCollisions, pairwisePass,
    pairwisePassAux, updateEmitter, updateOneParticle, handleShapeCollisions,
    detect_singleton, List.range_succ]
  refine ⟨?_, ?_, ?_, ?_⟩ <;>
  · split_ifs <;> simp <;> linarith
theorem floor_div_negone (W x : ℚ) (hW : 0 < W) (h1 : -W ≤ x) (h2 : x < 0) :
    ⌊x / W⌋ = -1 := by
  rw [Int.floor_eq_iff]
  constructor
  · push_cast
    rw [le_div_iff₀ hW]
    linarith
  · push_cast
    rw [div_lt_iff₀ hW]
    linarith

theorem floor_div_one (W x : ℚ) (hW : 0 < W) (h1 : W ≤ x) (h2 : x < 2 * W) :
    ⌊x / W⌋ = 1 := by
  rw [Int.floor_eq_iff]
  constructor
  · push_cast
    rw [le_div_iff₀ hW]
    linarith
  · push_cast
    rw [div_lt_iff₀ hW]
    linarith

theorem floor_div_zero (W x : ℚ) (hW : 0 < W) (h1 : 0 ≤ x) (h2 : x < W) :
    ⌊x / W⌋ = 0 := by
  rw [Int.floor_eq_iff]
  constructor
  · push_cast
    positivity
  · push_cast
    rw [div_lt_iff₀ hW]
    linarith
/-- C6 (amended): the wrap branch applies one single-width correction per
axis (adding or subtracting the bound once), not a full modulo: when the
integrated coordinate lies within [-bound, 2*bound) the result equals the
true modulo and lies within [0, bound); a faster particle (one crossing more
than one domain width per step, as in the counterexample) is not brought back
into range.  Stated for a single particle with no shapes, which the pair
separation and shape responses would otherwise displace. -/
theorem C6_wrap_mode (env : Env) (st : SimState) (dt : ℚ) (p v : V2)
    (hw : st.wrapEdges = true) (hs : st.shapes = []) (he : st.emitter = none)
    (hf : st.showForceField = false) (hsen : st.sensor = none)
    (hsh : st.sensorHits = none) (hpc : st.particleCount = 1)
    (hp : st.positions = [p]) (hv : st.velocities = [v])
    (hW : 0 < st.boundsW) (hH : 0 < st.boundsH)
    (hx1 : -st.boundsW ≤ p.x + v.x * (dt * st.speedMultiplier))
    (hx2 : p.x + v.x * (dt * st.speedMultiplier) < 2 * st.boundsW)
    (hy1 : -st.boundsH ≤ p.y + v.y * (dt * st.speedMultiplier))
    (hy2 : p.y + v.y * (dt * st.speedMultiplier) < 2 * st.boundsH) :
    ∃ q : V2, (update env st dt).positions = [q] ∧
      q.x = p.x + v.x * (dt * st.speedMultiplier) -
        st.boundsW * ⌊(p.x + v.x * (dt * st.speedMultiplier)) / st.boundsW⌋ ∧
      0 ≤ q.x ∧ q.x < st.boundsW ∧
      q.y = p.y + v.y * (dt * st.speedMultiplier) -
        st.boundsH * ⌊(p.y + v.y * (dt * st.speedMultiplier)) / st.boundsH⌋ ∧
      0 ≤ q.y ∧ q.y < st.boundsH := by
  obtain ⟨pc, ps, vs, sm, damping, r, W, H, cs, shapes, time, sensor, hits,
    sres, sff, ffr, ff, ffw, ffh, em, acc, act, wrap, ec⟩ := st
  simp only at hw hs he hf hsen hsh hpc hp hv hW hH hx1 hx2 hy1 hy2
  subst hw hs he hf hsen hsh hpc hp hv
  simp [update, updateShapes, checkShapeCollisions, pairwisePass,
    pairwisePassAux, updateEmitter, updateOneParticle, handleShapeCollisions,
    detect_singleton, List.range_succ]
  refine ⟨?_, ?_, ?_, ?_, ?_, ?_⟩
  · split_ifs with ha hb
    · rw [floor_div_negone W _ hW hx1 ha]
      push_cast
      ring
    · rw [floor_div_one W _ hW hb (by linarith)]
      push_cast
      ring
    · rw [floor_div_zero W _ hW (by linarith) (by linarith)]
      push_cast
      ring
  · split_ifs <;> linarith
  · split_ifs <;> linarith
  · split_ifs with ha hb
    · rw [floor_div_negone H _ hH hy1 ha]
      push_cast
      ring
    · rw [floor_div_one H _ hH hb (by linarith)]
      push_cast
      ring
    · rw [floor_div_zero H _ hH (by linarith) (by linarith)]
      push_cast
      ring
  · split_ifs <;> linarith
  · split_ifs <;> linarith
theorem C1_witness :
    ∃ q : V2, (update (sqEnv fun _ => 0) baseState 0).positions = [q] ∧
      baseState.particleRadius ≤ q.x ∧
      q.x ≤ baseState.boundsW - baseState.particleRadius ∧
      baseState.particleRadius ≤ q.y ∧
      q.y ≤ baseState.boundsH - baseState.particleRadius :=
  C1_reflect_bounds (sqEnv fun _ => 0) baseState 0 ⟨0, 0⟩ ⟨0, 0⟩ rfl rfl rfl
    rfl rfl rfl rfl rfl rfl (by norm_num [baseState]) (by norm_num [baseState])

/-- C1 counterexample: in reflect mode with one static rectangle, after a
single update the particle sits at x = 39, outside
[radius, bound - radius] = [2, 38]: the boundary clamp runs before the shape
response, and the rectangle push-out moves the particle past the wall margin,
refuting the claim for arbitrary shape lists. -/
theorem C1_counterexample :
    (update (sqEnv fun q => if q = 1 then 1 else 0) c1State 0).positions =
      [⟨39, 10⟩] ∧
    ¬ ((39 : ℚ) ≤ c1State.boundsW - c1State.particleRadius) := by
  constructor
  · norm_num [update, updateShapes, updateShape1, checkShapeCollisions,
      pairwisePass, pairwisePassAux, pairOnePass, updateEmitter,
      updateOneParticle, handleShapeCollisions, handleStaticRectCollision,
      detectCollisionsOptimized, buildSpatialHash, insertGrid, collisionPairs,
      pairsForCell, neighborKeys, lookupCell, List.find?, List.enum,
      c1State, c1Rect, baseState, sqEnv, List.range_succ, applyPairCollision,
      handleCollision]
  · norm_num [c1State, baseState]

theorem C6_witness :
    ∃ q : V2, (update (sqEnv fun _ => 0) c6WitState 1).positions = [q] ∧
      q.x = (⟨35, 10⟩ : V2).x + (⟨10, 0⟩ : V2).x * (1 * c6WitState.speedMultiplier) -
        c6WitState.boundsW * ⌊((⟨35, 10⟩ : V2).x + (⟨10, 0⟩ : V2).x *
          (1 * c6WitState.speedMultiplier)) / c6WitState.boundsW⌋ ∧
      0 ≤ q.x ∧ q.x < c6WitState.boundsW ∧
      q.y = (⟨35, 10⟩ : V2).y + (⟨10, 0⟩ : V2).y * (1 * c6WitState.speedMultiplier) -
        c6WitState.boundsH * ⌊((⟨35, 10⟩ : V2).y + (⟨10, 0⟩ : V2).y *
          (1 * c6WitState.speedMultiplier)) / c6WitState.boundsH⌋ ∧
      0 ≤ q.y ∧ q.y < c6WitState.boundsH :=
  C6_wrap_mode (sqEnv fun _ => 0) c6WitState 1 ⟨35, 10⟩ ⟨10, 0⟩ rfl rfl rfl rfl
    rfl rfl rfl rfl rfl (by norm_num [c6WitState, baseState])
    (by norm_num [c6WitState, baseState]) (by norm_num [c6WitState, baseState])
    (by norm_num [c6WitState, baseState]) (by norm_num [c6WitState, baseState])
    (by norm_num [c6WitState, baseState])

/-- C6 counterexample: in wrap mode a particle moving two domain widths in
one step ends at x = 40 = bound, outside [0, bound): the wrap branch
subtracts the width only once, so the claimed invariant for every starting
position and velocity fails. -/
theorem C6_counterexample :
    (update (sqEnv fun _ => 0) c6State 1).positions = [⟨40, 10⟩] ∧
    ¬ ((40 : ℚ) < c6State.boundsW) := by
  constructor
  · norm_num [update, updateShapes, updateShape1, checkShapeCollisions,
      pairwisePass, pairwisePassAux, pairOnePass, updateEmitter,
      updateOneParticle, handleShapeCollisions, detectCollisionsOptimized,
      buildSpatialHash, insertGrid, collisionPairs, pairsForCell,
      neighborKeys, lookupCell, List.find?, List.enum, c6State, baseState,
      sqEnv, List.range_succ, applyPairCollision, handleCollision]
  · norm_num [c6State, baseState]

end PPLab


